import Mathlib

/-!
Verification development for the skana backend's event-detection and
bet-evaluation core (`skana_backend.py`).

The embedding models:
* `evaluate_bet` (lines 255-314) — a pure function over market selection
  codes, except that the `CS` branch calls Python's `int()` which can raise
  `ValueError`; the embedding therefore returns `Except String Bool`.
* `process_matches` (lines 155-253) — the per-cycle detector, modelled as
  explicit state passing over `DetectorState` (the module-level
  `notified_events` set and `previous_scores` dict).

Python peculiarities modelled faithfully:
* `int(s)` accepts surrounding whitespace, an optional sign, and single
  underscores between digits; anything else raises (`pyInt` returns `none`).
* `s.replace("CS", "")` removes every occurrence of `"CS"`, not only the
  leading one (`removeCS`).
* `s.split('-')` always returns at least one field (`splitDash`).
* `a or b or 0` on optional ints treats both `None` and `0` as falsy
  (`pyOrD`), so a full-time score of 0 falls through to the half-time score.
* comparisons such as `total_goals > 1.5` compare an int with a float that
  is exactly representable in binary, so the comparison is exact; it is
  modelled over `ℚ` (`mkRat 3 2` is exactly the float `1.5`, and so on).
-/

/-- One step of Python's `or` chain on an optional int: `none` and `0` are
falsy, every other int is truthy. -/
def pyOrD (a : Option Int) (d : Int) : Int :=
  match a with
  | some x => if x = 0 then d else x
  | none => d

/-- Digit-run parser for Python `int()`: consumes digits with single
underscores allowed between digits, accumulating the decimal value. -/
def natCoreGo (acc : Nat) : List Char → Option Nat
  | [] => some acc
  | c :: cs =>
    if c.isDigit then natCoreGo (10 * acc + (c.toNat - 48)) cs
    else if c = '_' then
      match cs with
      | c2 :: cs2 => if c2.isDigit then natCoreGo (10 * acc + (c2.toNat - 48)) cs2 else none
      | [] => none
    else none

/-- Non-empty digit run (the part of a Python int literal after the sign). -/
def natCore : List Char → Option Nat
  | [] => none
  | c :: cs => if c.isDigit then natCoreGo (c.toNat - 48) cs else none

/-- Strip whitespace from both ends of a character list. -/
def stripWs (l : List Char) : List Char :=
  ((l.dropWhile Char.isWhitespace).reverse.dropWhile Char.isWhitespace).reverse

/-- Model of Python `int(s)`: strip whitespace, optional sign, digit run with
underscores. `none` models `ValueError`. -/
def pyInt (l : List Char) : Option Int :=
  match stripWs l with
  | [] => none
  | c :: rest =>
    if c = '+' then (natCore rest).map Int.ofNat
    else if c = '-' then (natCore rest).map (fun n => -(n : Int))
    else (natCore (c :: rest)).map Int.ofNat

/-- Model of Python `s.replace("CS", "")`: remove every (non-overlapping,
left-to-right) occurrence of `"CS"`. -/
def removeCS : List Char → List Char
  | [] => []
  | [c] => [c]
  | c :: c2 :: cs =>
    if c = 'C' ∧ c2 = 'S' then removeCS cs
    else c :: removeCS (c2 :: cs)

/-- Model of Python `s.split('-')`: split on every dash; always returns at
least one (possibly empty) field. -/
def splitDash : List Char → List (List Char)
  | [] => [[]]
  | c :: cs =>
    if c = '-' then [] :: splitDash cs
    else
      match splitDash cs with
      | [] => [[c]]
      | p :: ps => (c :: p) :: ps

/-- Does the selection string start with `"CS"` (Python `startswith`)? -/
def startsWithCS (s : String) : Bool :=
  match s.data with
  | 'C' :: 'S' :: _ => true
  | _ => false

/-- Embedding of `evaluate_bet` (skana_backend.py lines 255-314). The `CS`
branch mirrors `selection.replace('CS','').split('-')` followed by two
unguarded `int()` calls; a failed parse is the propagated `ValueError`. -/
def evaluate_bet (selection : String) (home_score away_score total_goals : Int) :
    Except String Bool :=
  if selection = "1" then .ok (decide (home_score > away_score))
  else if selection = "X" then .ok (decide (home_score = away_score))
  else if selection = "2" then .ok (decide (away_score > home_score))
  else if selection = "1X" then .ok (decide (home_score ≥ away_score))
  else if selection = "X2" then .ok (decide (away_score ≥ home_score))
  else if selection = "12" then .ok (decide (home_score ≠ away_score))
  else if selection = "O1.5" then .ok (decide ((total_goals : ℚ) > mkRat 3 2))
  else if selection = "O2.5" then .ok (decide ((total_goals : ℚ) > mkRat 5 2))
  else if selection = "O3.5" then .ok (decide ((total_goals : ℚ) > mkRat 7 2))
  else if selection = "U1.5" then .ok (decide ((total_goals : ℚ) < mkRat 3 2))
  else if selection = "U2.5" then .ok (decide ((total_goals : ℚ) < mkRat 5 2))
  else if selection = "U3.5" then .ok (decide ((total_goals : ℚ) < mkRat 7 2))
  else if selection = "BTTS_Y" then .ok (decide (home_score > 0) && decide (away_score > 0))
  else if selection = "BTTS_N" then .ok (decide (home_score = 0) || decide (away_score = 0))
  else if selection = "H1-1" then .ok (decide (home_score - 1 > away_score))
  else if selection = "H1+1" then .ok (decide (home_score + 1 > away_score))
  else if selection = "H2-1" then .ok (decide (away_score - 1 > home_score))
  else if selection = "H2+1" then .ok (decide (away_score + 1 > home_score))
  else if startsWithCS selection then
    let exact_score := removeCS selection.data
    let parts := splitDash exact_score
    match parts with
    | [p0, p1] =>
      match pyInt p0 with
      | none => .error "ValueError"
      | some expected_home =>
        match pyInt p1 with
        | none => .error "ValueError"
        | some expected_away =>
          .ok (decide (home_score = expected_home) && decide (away_score = expected_away))
    | _ => .ok false
  else .ok false

/-- The eighteen literal selection codes of the spec's §4.1 table (everything
except the `CS<h>-<a>` family). Spec-side definition used to compare
`evaluate_bet` with the documented table. -/
def vocabList : List String :=
  ["1", "X", "2", "1X", "X2", "12",
   "O1.5", "O2.5", "O3.5", "U1.5", "U2.5", "U3.5",
   "BTTS_Y", "BTTS_N", "H1-1", "H1+1", "H2-1", "H2+1"]

/-- A non-empty run of ASCII decimal digits. -/
def isDigitList (l : List Char) : Bool :=
  !l.isEmpty && l.all Char.isDigit

/-- Decimal value of a digit run. -/
def digitsVal (l : List Char) : Nat :=
  l.foldl (fun acc c => 10 * acc + (c.toNat - 48)) 0

/-- Spec-side well-formedness of a `CS<h>-<a>` code: after the `CS` head the
remainder splits on `-` into exactly two non-empty digit fields. -/
def wellFormedCS (s : String) : Bool :=
  match s.data with
  | 'C' :: 'S' :: rest =>
    match splitDash rest with
    | [p0, p1] => isDigitList p0 && isDigitList p1
    | _ => false
  | _ => false

/-- Spec-side vocabulary of §4.1: the eighteen literal codes plus well-formed
`CS<h>-<a>` codes. -/
def specVocab (s : String) : Bool :=
  decide (s ∈ vocabList) || wellFormedCS s

/-- Spec-side win-condition table of §4.1, written from the spec's words
(home `H`, away `A`, total `T = H + A`). -/
def specWin (s : String) (H A : Int) : Bool :=
  if s = "1" then decide (H > A)
  else if s = "X" then decide (H = A)
  else if s = "2" then decide (A > H)
  else if s = "1X" then decide (H ≥ A)
  else if s = "X2" then decide (A ≥ H)
  else if s = "12" then decide (H ≠ A)
  else if s = "O1.5" then decide (((H + A : Int) : ℚ) > mkRat 3 2)
  else if s = "O2.5" then decide (((H + A : Int) : ℚ) > mkRat 5 2)
  else if s = "O3.5" then decide (((H + A : Int) : ℚ) > mkRat 7 2)
  else if s = "U1.5" then decide (((H + A : Int) : ℚ) < mkRat 3 2)
  else if s = "U2.5" then decide (((H + A : Int) : ℚ) < mkRat 5 2)
  else if s = "U3.5" then decide (((H + A : Int) : ℚ) < mkRat 7 2)
  else if s = "BTTS_Y" then decide (H > 0) && decide (A > 0)
  else if s = "BTTS_N" then decide (H = 0) || decide (A = 0)
  else if s = "H1-1" then decide (H - 1 > A)
  else if s = "H1+1" then decide (H + 1 > A)
  else if s = "H2-1" then decide (A - 1 > H)
  else if s = "H2+1" then decide (A + 1 > H)
  else
    match s.data with
    | 'C' :: 'S' :: rest =>
      match splitDash rest with
      | [p0, p1] =>
        if isDigitList p0 && isDigitList p1 then
          decide (H = (digitsVal p0 : Int)) && decide (A = (digitsVal p1 : Int))
        else false
      | _ => false
    | _ => false


/-! ### Data model and per-cycle detector (`process_matches`, lines 155-253)

Records carry `Option` fields where the Python dict lookups may miss
(`m.get('id')`, `bet.get('matchId')`, `score.get('fullTime', {}).get('home')`,
…). The module-level caches `notified_events : set` and
`previous_scores : dict` become an explicit `DetectorState` threaded through
the cycle; the dict is modelled as a shadowing association list whose lookup
(`lookupPrev`) takes the most recent entry, which is observationally the dict.
A `ValueError` escaping `evaluate_bet` aborts the cycle: the fold
short-circuits, returning the notifications already dispatched (sends happen
eagerly in the loop) and the error. -/

structure Device where
  token : String
deriving DecidableEq

structure Bet where
  matchId : Option String
  selection : Option String
deriving DecidableEq

structure Ticket where
  status : Option String
  bets : List Bet
deriving DecidableEq

/-- One match record of the polling snapshot. `ftHome` is
`score['fullTime']['home']` etc., `none` when the field or its enclosing dict
is absent. -/
structure MatchRec where
  id : Option String
  homeTeamName : Option String
  awayTeamName : Option String
  status : Option String
  ftHome : Option Int
  ftAway : Option Int
  htHome : Option Int
  htAway : Option Int
deriving DecidableEq

/-- One notification intent: the device token plus the FCM title/body and data
payload built by `send_notification` call sites. -/
structure Notif where
  token : String
  title : String
  body : String
  dataMatchId : String
  dataType : String
  dataScorer : Option String
deriving DecidableEq

/-- The module-level mutable caches: `notified_events` (a set of event keys)
and `previous_scores` (a dict matchId → last seen score pair). -/
structure DetectorState where
  notified : List String
  prevScores : List (String × Int × Int)
deriving DecidableEq

/-- Fresh state at process start: `set()` and `{}`. -/
def initState : DetectorState := ⟨[], []⟩

/-- Lines 179-180: `score.get('fullTime',{}).get('home') or
score.get('halfTime',{}).get('home') or 0` — Python `or`, so an absent or zero
full-time value falls through to the half-time value, then to 0. -/
def resolveScore (ft ht : Option Int) : Int :=
  pyOrD ft (pyOrD ht 0)

/-- Line 184: `previous_scores.get(match_id, {'home': 0, 'away': 0})`. -/
def lookupPrev (l : List (String × Int × Int)) (mid : String) : Int × Int :=
  match l.find? (fun p => p.1 = mid) with
  | some p => p.2
  | none => (0, 0)

/-- Line 226: `previous_scores[match_id] = {...}` — shadowing cons; lookup
takes the newest entry. -/
def setPrev (l : List (String × Int × Int)) (mid : String) (h a : Int) :
    List (String × Int × Int) :=
  (mid, h, a) :: l

/-- `notified_events.add(key)` (set add). -/
def insertKey (k : String) (l : List String) : List String :=
  if k ∈ l then l else k :: l

def startedKey (mid : String) : String := mid ++ "_started"

def scoreKey (mid : String) (h a : Int) : String :=
  mid ++ "_score_" ++ toString h ++ "_" ++ toString a

def finishedKey (mid : String) : String := mid ++ "_finished"

def startedNotif (mid ht aw : String) (d : Device) : Notif :=
  { token := d.token
    title := "🏟️ ¡Comenzó! " ++ ht ++ " vs " ++ aw
    body := "Tu apuesta está en juego"
    dataMatchId := mid
    dataType := "started"
    dataScorer := none }

def goalHomeNotif (mid ht aw : String) (h a : Int) (d : Device) : Notif :=
  { token := d.token
    title := "⚽ ¡GOL de " ++ ht ++ "!"
    body := ht ++ " " ++ toString h ++ " - " ++ toString a ++ " " ++ aw
    dataMatchId := mid
    dataType := "goal"
    dataScorer := some "home" }

def goalAwayNotif (mid ht aw : String) (h a : Int) (d : Device) : Notif :=
  { token := d.token
    title := "⚽ ¡GOL de " ++ aw ++ "!"
    body := ht ++ " " ++ toString h ++ " - " ++ toString a ++ " " ++ aw
    dataMatchId := mid
    dataType := "goal"
    dataScorer := some "away" }

def wonNotif (mid ht aw : String) (h a : Int) (d : Device) : Notif :=
  { token := d.token
    title := "🎉 ¡GANASTE! " ++ ht ++ " vs " ++ aw
    body := "Final: " ++ toString h ++ " - " ++ toString a
    dataMatchId := mid
    dataType := "won"
    dataScorer := none }

def lostNotif (mid ht aw : String) (h a : Int) (d : Device) : Notif :=
  { token := d.token
    title := "😢 Perdiste: " ++ ht ++ " vs " ++ aw
    body := "Final: " ++ toString h ++ " - " ++ toString a
    dataMatchId := mid
    dataType := "lost"
    dataScorer := none }

/-- Lines 188-198: kickoff detection and fan-out. -/
def stepStarted (devices : List Device) (mid ht aw : String) (status : Option String)
    (st : DetectorState) : DetectorState × List Notif :=
  if (status = some "IN_PLAY" ∨ status = some "LIVE") ∧ startedKey mid ∉ st.notified then
    ({ st with notified := insertKey (startedKey mid) st.notified },
     devices.map (startedNotif mid ht aw))
  else (st, [])

/-- Lines 200-223: goal detection (home first, else away) and fan-out. -/
def stepGoal (devices : List Device) (mid ht aw : String) (status : Option String)
    (h a ph pa : Int) (st : DetectorState) : DetectorState × List Notif :=
  if (status = some "IN_PLAY" ∨ status = some "LIVE" ∨ status = some "PAUSED") ∧
      scoreKey mid h a ∉ st.notified then
    if h > ph then
      ({ st with notified := insertKey (scoreKey mid h a) st.notified },
       devices.map (goalHomeNotif mid ht aw h a))
    else if a > pa then
      ({ st with notified := insertKey (scoreKey mid h a) st.notified },
       devices.map (goalAwayNotif mid ht aw h a))
    else (st, [])
  else (st, [])

/-- Lines 228-253: finished detection, bet evaluation, won/lost fan-out. The
key is added (line 231) before `evaluate_bet` runs, so a raising evaluation
still consumes the finished event. -/
def stepFinished (devices : List Device) (mid ht aw : String) (status : Option String)
    (selection : String) (h a : Int) (st : DetectorState) :
    DetectorState × List Notif × Option String :=
  if status = some "FINISHED" ∧ finishedKey mid ∉ st.notified then
    match evaluate_bet selection h a (h + a) with
    | .error e => ({ st with notified := insertKey (finishedKey mid) st.notified }, [], some e)
    | .ok won =>
      ({ st with notified := insertKey (finishedKey mid) st.notified },
       devices.map (fun d => if won then wonNotif mid ht aw h a d else lostNotif mid ht aw h a d),
       none)
  else (st, [], none)

/-- Line 169: `next((m for m in matches if m.get('id') == match_id), None)`. -/
def findMatch (matchList : List MatchRec) (mid : String) : Option MatchRec :=
  matchList.find? (fun m => m.id = some mid)

/-- Lines 163-253: processing of one bet of a non-terminal ticket. Returns the
updated caches, the notifications dispatched, and a `ValueError` if the bet
evaluation raised. -/
def processBet (matchList : List MatchRec) (devices : List Device) (st : DetectorState)
    (bet : Bet) : DetectorState × List Notif × Option String :=
  match bet.matchId with
  | none => (st, [], none)
  | some mid =>
    if mid = "" then (st, [], none)
    else
      match findMatch matchList mid with
      | none => (st, [], none)
      | some m =>
        let home_team := m.homeTeamName.getD "Local"
        let away_team := m.awayTeamName.getD "Visitante"
        let home_score := resolveScore m.ftHome m.htHome
        let away_score := resolveScore m.ftAway m.htAway
        let prev := lookupPrev st.prevScores mid
        let r1 := stepStarted devices mid home_team away_team m.status st
        let r2 := stepGoal devices mid home_team away_team m.status
          home_score away_score prev.1 prev.2 r1.1
        let st3 : DetectorState :=
          { r2.1 with prevScores := setPrev r2.1.prevScores mid home_score away_score }
        let r3 := stepFinished devices mid home_team away_team m.status
          (bet.selection.getD "1") home_score away_score st3
        (r3.1, r1.2 ++ r2.2 ++ r3.2.1, r3.2.2)

/-- Sequential processing of a ticket's bets; an uncaught `ValueError` aborts
the rest of the cycle. -/
def runBets (matchList : List MatchRec) (devices : List Device) :
    List Bet → DetectorState → DetectorState × List Notif × Option String
  | [], st => (st, [], none)
  | b :: bs, st =>
    let r := processBet matchList devices st b
    match r.2.2 with
    | some e => (r.1, r.2.1, some e)
    | none =>
      let r2 := runBets matchList devices bs r.1
      (r2.1, r.2.1 ++ r2.2.1, r2.2.2)

/-- Lines 159-161: tickets whose status is `'won'` or `'lost'` are skipped. -/
def processTicket (matchList : List MatchRec) (devices : List Device) (st : DetectorState)
    (t : Ticket) : DetectorState × List Notif × Option String :=
  if t.status = some "won" ∨ t.status = some "lost" then (st, [], none)
  else runBets matchList devices t.bets st

def runTickets (matchList : List MatchRec) (devices : List Device) :
    List Ticket → DetectorState → DetectorState × List Notif × Option String
  | [], st => (st, [], none)
  | t :: ts, st =>
    let r := processTicket matchList devices st t
    match r.2.2 with
    | some e => (r.1, r.2.1, some e)
    | none =>
      let r2 := runTickets matchList devices ts r.1
      (r2.1, r.2.1 ++ r2.2.1, r2.2.2)

/-- Embedding of `process_matches(matches, tickets, devices)` as a function of
the explicit cache state. -/
def process_matches (matchList : List MatchRec) (tickets : List Ticket)
    (devices : List Device) (st : DetectorState) :
    DetectorState × List Notif × Option String :=
  runTickets matchList devices tickets st

/-! ### Concrete fixtures for the end-to-end scenario theorems -/

def devA : Device := ⟨"device-token-A"⟩

def devB : Device := ⟨"device-token-B"⟩

/-- A fully populated match record with full-time score `h`-`a`. -/
def sampleMatch (mid status : String) (h a : Int) : MatchRec :=
  { id := some mid
    homeTeamName := some "Alpha"
    awayTeamName := some "Beta"
    status := some status
    ftHome := some h
    ftAway := some a
    htHome := none
    htAway := none }

/-- The scenario-B ticket: one OPEN ticket with a single `1` bet on `M1`. -/
def scenTicket : Ticket :=
  { status := some "open", bets := [{ matchId := some "M1", selection := some "1" }] }

/-- Scenario B, cycle 1: score 0-0, `IN_PLAY`. -/
def scenB1 := process_matches [sampleMatch "M1" "IN_PLAY" 0 0] [scenTicket] [devA, devB] initState

/-- Scenario B, cycle 2: score 1-0, `IN_PLAY`. -/
def scenB2 := process_matches [sampleMatch "M1" "IN_PLAY" 1 0] [scenTicket] [devA, devB] scenB1.1

/-- Scenario B, cycle 3: identical score 1-0, `IN_PLAY`. -/
def scenB3 := process_matches [sampleMatch "M1" "IN_PLAY" 1 0] [scenTicket] [devA, devB] scenB2.1

/-- Scenario B, cycle 4: score 1-0, `FINISHED`. -/
def scenB4 := process_matches [sampleMatch "M1" "FINISHED" 1 0] [scenTicket] [devA, devB] scenB3.1

/-- Replay fixture: a `FINISHED` match with a malformed `CS` bet, followed by a
second ticket on a live match. -/
def replayMatches : List MatchRec :=
  [sampleMatch "M1" "FINISHED" 1 0, sampleMatch "M2" "IN_PLAY" 0 0]

def replayTickets : List Ticket :=
  [⟨none, [⟨some "M1", some "CSa-b"⟩]⟩, ⟨none, [⟨some "M2", some "1"⟩]⟩]

def replayRun1 := process_matches replayMatches replayTickets [devA] initState

def replayRun2 := process_matches replayMatches replayTickets [devA] replayRun1.1

/-- Stability of one bet with respect to a snapshot: the events the bet could
fire are already recorded and the stored score equals the snapshot score. A
bet that does not resolve to a match is vacuously stable. -/
def BetStable (matchList : List MatchRec) (st : DetectorState) (b : Bet) : Prop :=
  ∀ mid m, b.matchId = some mid → mid ≠ "" → findMatch matchList mid = some m →
    ((m.status = some "IN_PLAY" ∨ m.status = some "LIVE") → startedKey mid ∈ st.notified) ∧
    lookupPrev st.prevScores mid =
      (resolveScore m.ftHome m.htHome, resolveScore m.ftAway m.htAway) ∧
    (m.status = some "FINISHED" → finishedKey mid ∈ st.notified)

/-- Stability of every bet of every non-terminal ticket. -/
def TicketsStable (matchList : List MatchRec) (st : DetectorState)
    (ts : List Ticket) : Prop :=
  ∀ t ∈ ts, ¬(t.status = some "won" ∨ t.status = some "lost") →
    ∀ b ∈ t.bets, BetStable matchList st b

/-! ### Helper lemmas for the bet evaluator -/

lemma digit_not_ws (c : Char) (h : c.isDigit = true) : c.isWhitespace = false := by
  simp [Char.isDigit] at h
  simp only [Char.isWhitespace, Bool.or_eq_false_iff, decide_eq_false_iff_not]
  refine ⟨⟨⟨?_, ?_⟩, ?_⟩, ?_⟩ <;> rintro rfl <;> exact absurd h (by decide)

lemma stripWs_of_digits (l : List Char) (h : ∀ c ∈ l, c.isDigit = true) :
    stripWs l = l := by
  unfold stripWs
  have h1 : l.dropWhile Char.isWhitespace = l := by
    cases l with
    | nil => rfl
    | cons c cs =>
      rw [List.dropWhile_cons, digit_not_ws c (h c (by simp))]
      simp
  rw [h1]
  have h2 : l.reverse.dropWhile Char.isWhitespace = l.reverse := by
    cases hr : l.reverse with
    | nil => rfl
    | cons c cs =>
      have hc : c ∈ l := by
        rw [← List.mem_reverse, hr]; simp
      rw [List.dropWhile_cons, digit_not_ws c (h c hc)]
      simp
  rw [h2, List.reverse_reverse]

lemma natCoreGo_digits (l : List Char) (acc : Nat) (h : ∀ c ∈ l, c.isDigit = true) :
    natCoreGo acc l = some (l.foldl (fun a c => 10 * a + (c.toNat - 48)) acc) := by
  induction l generalizing acc with
  | nil => rfl
  | cons c cs ih =>
    have hc : c.isDigit = true := h c (by simp)
    cases cs with
    | nil => rw [natCoreGo.eq_3, hc]; simp [natCoreGo]
    | cons c2 cs2 =>
      rw [natCoreGo.eq_2, hc]
      simp only [if_true, List.foldl_cons]
      exact ih _ (fun x hx => h x (by simp [hx]))

lemma natCore_digits (l : List Char) (h0 : l ≠ []) (h : ∀ c ∈ l, c.isDigit = true) :
    natCore l = some (digitsVal l) := by
  cases l with
  | nil => exact absurd rfl h0
  | cons c cs =>
    have hc : c.isDigit = true := h c (by simp)
    simp only [natCore, hc, if_true]
    rw [natCoreGo_digits cs (c.toNat - 48) (fun x hx => h x (by simp [hx]))]
    simp only [digitsVal, List.foldl_cons]
    congr 2
    omega

lemma pyInt_digits (l : List Char) (h0 : l ≠ []) (h : ∀ c ∈ l, c.isDigit = true) :
    pyInt l = some ((digitsVal l : Int)) := by
  have hstrip : stripWs l = l := stripWs_of_digits l h
  cases l with
  | nil => exact absurd rfl h0
  | cons c cs =>
    have hc : c.isDigit = true := h c (by simp)
    have hplus : c ≠ '+' := by rintro rfl; exact absurd hc (by decide)
    have hminus : c ≠ '-' := by rintro rfl; exact absurd hc (by decide)
    simp only [pyInt, hstrip, if_neg hplus, if_neg hminus]
    rw [natCore_digits (c :: cs) (by simp) h]
    rfl

lemma removeCS_cons_ne (c : Char) (cs : List Char) (h : c ≠ 'C') :
    removeCS (c :: cs) = c :: removeCS cs := by
  cases cs with
  | nil => rfl
  | cons c2 cs2 =>
    rw [removeCS, if_neg (fun hh => h hh.1)]

lemma removeCS_of_noC (l : List Char) (h : ∀ c ∈ l, c ≠ 'C') : removeCS l = l := by
  induction l with
  | nil => rfl
  | cons c cs ih =>
    rw [removeCS_cons_ne c cs (h c (by simp)), ih (fun x hx => h x (by simp [hx]))]

lemma splitDash_ne_nil (l : List Char) : splitDash l ≠ [] := by
  cases l with
  | nil => simp [splitDash]
  | cons c cs =>
    simp only [splitDash]
    by_cases h : c = '-'
    · simp [h]
    · simp only [if_neg h]
      cases hsp : splitDash cs <;> simp

lemma splitDash_singleton (l p : List Char) (h : splitDash l = [p]) : l = p := by
  induction l generalizing p with
  | nil =>
    simp only [splitDash] at h
    injection h with h1 _
  | cons c cs ih =>
    by_cases hc : c = '-'
    · simp only [splitDash, hc, if_true] at h
      injection h with h1 h2
      exact absurd h2 (splitDash_ne_nil cs)
    · simp only [splitDash, if_neg hc] at h
      cases hsp : splitDash cs with
      | nil => exact absurd hsp (splitDash_ne_nil cs)
      | cons p' ps' =>
        rw [hsp] at h
        injection h with h1 h2
        subst h2
        rw [← h1, ih p' hsp]

lemma splitDash_pair (l p0 p1 : List Char) (h : splitDash l = [p0, p1]) :
    l = p0 ++ '-' :: p1 := by
  induction l generalizing p0 with
  | nil =>
    simp only [splitDash] at h
    injection h with _ h2
    exact absurd h2.symm (by simp)
  | cons c cs ih =>
    by_cases hc : c = '-'
    · simp only [splitDash, hc, if_true] at h
      injection h with h1 h2
      subst hc
      rw [← h1, splitDash_singleton cs p1 h2]
      rfl
    · simp only [splitDash, if_neg hc] at h
      cases hsp : splitDash cs with
      | nil => exact absurd hsp (splitDash_ne_nil cs)
      | cons p' ps' =>
        rw [hsp] at h
        injection h with h1 h2
        subst h1
        rw [ih p' (by rw [hsp, h2])]
        rfl

lemma mkCS_ne (rest : List Char) (t : String) (h : t.data.head? ≠ some 'C') :
    String.mk ('C' :: 'S' :: rest) ≠ t := by
  intro he
  apply h
  rw [← he]
  rfl

lemma isDigitList_props (l : List Char) (h : isDigitList l = true) :
    l ≠ [] ∧ ∀ c ∈ l, c.isDigit = true := by
  rw [isDigitList, Bool.and_eq_true] at h
  refine ⟨?_, ?_⟩
  · intro he
    subst he
    simp at h
  · intro c hc
    have hall := h.2
    rw [List.all_eq_true] at hall
    exact hall c hc

lemma removeCS_CS (rest : List Char) : removeCS ('C' :: 'S' :: rest) = removeCS rest := rfl

/-- C1: for every code in the §4.1 vocabulary, `evaluate_bet` returns the
documented win condition; for a code outside the vocabulary that does not
start with `CS`, it returns false. (The original claim also asserted that
CS-prefixed codes outside the vocabulary return false; that part is refuted
separately — a two-field non-integer suffix raises `ValueError`.) -/
theorem evaluate_bet_meets_spec_table (s : String) (H A : Int)
    (_hH : 0 ≤ H) (_hA : 0 ≤ A) :
    (specVocab s = true → evaluate_bet s H A (H + A) = Except.ok (specWin s H A)) ∧
    (specVocab s = false → startsWithCS s = false →
      evaluate_bet s H A (H + A) = Except.ok false) := by
  constructor
  · intro hv
    rw [specVocab, Bool.or_eq_true, decide_eq_true_eq] at hv
    rcases hv with hmem | hcs
    · simp only [vocabList, List.mem_cons, List.not_mem_nil, or_false] at hmem
      rcases hmem with rfl|rfl|rfl|rfl|rfl|rfl|rfl|rfl|rfl|rfl|rfl|rfl|rfl|rfl|rfl|rfl|rfl|rfl <;>
        rfl
    · unfold wellFormedCS at hcs
      split at hcs
      case _ rest heq =>
        split at hcs
        case _ p0 p1 hsp =>
          rw [Bool.and_eq_true] at hcs
          obtain ⟨h0ne, h0dig⟩ := isDigitList_props p0 hcs.1
          obtain ⟨h1ne, h1dig⟩ := isDigitList_props p1 hcs.2
          have hs' : s = String.mk ('C' :: 'S' :: rest) := String.ext heq
          subst hs'
          have hrest : rest = p0 ++ '-' :: p1 := splitDash_pair rest p0 p1 hsp
          have hnoC : ∀ c ∈ rest, c ≠ 'C' := by
            intro c hcin
            rw [hrest] at hcin
            rcases List.mem_append.mp hcin with hin | hin
            · have hd := h0dig c hin
              rintro rfl
              exact absurd hd (by decide)
            · rcases List.mem_cons.mp hin with rfl | hin2
              · decide
              · have hd := h1dig c hin2
                rintro rfl
                exact absurd hd (by decide)
          have hrm : removeCS rest = rest := removeCS_of_noC rest hnoC
          have hne := mkCS_ne rest
          simp only [evaluate_bet, specWin,
            if_neg (hne "1" (by decide)), if_neg (hne "X" (by decide)),
            if_neg (hne "2" (by decide)), if_neg (hne "1X" (by decide)),
            if_neg (hne "X2" (by decide)), if_neg (hne "12" (by decide)),
            if_neg (hne "O1.5" (by decide)), if_neg (hne "O2.5" (by decide)),
            if_neg (hne "O3.5" (by decide)), if_neg (hne "U1.5" (by decide)),
            if_neg (hne "U2.5" (by decide)), if_neg (hne "U3.5" (by decide)),
            if_neg (hne "BTTS_Y" (by decide)), if_neg (hne "BTTS_N" (by decide)),
            if_neg (hne "H1-1" (by decide)), if_neg (hne "H1+1" (by decide)),
            if_neg (hne "H2-1" (by decide)), if_neg (hne "H2+1" (by decide))]
          rw [if_pos (show startsWithCS (String.mk ('C' :: 'S' :: rest)) = true from rfl)]
          simp only [removeCS_CS, hrm, hsp]
          rw [pyInt_digits p0 h0ne h0dig, pyInt_digits p1 h1ne h1dig]
          simp [hcs.1, hcs.2]
        case _ => exact absurd hcs (by simp)
      case _ => exact absurd hcs (by simp)
  · intro hnv hsw
    have hmem : s ∉ vocabList := by
      intro hm
      rw [specVocab] at hnv
      simp [hm] at hnv
    simp only [vocabList, List.mem_cons, List.not_mem_nil, or_false, not_or] at hmem
    obtain ⟨h1, h2, h3, h4, h5, h6, h7, h8, h9, h10, h11, h12, h13, h14, h15, h16, h17, h18⟩ :=
      hmem
    simp only [evaluate_bet, if_neg h1, if_neg h2, if_neg h3, if_neg h4, if_neg h5,
      if_neg h6, if_neg h7, if_neg h8, if_neg h9, if_neg h10, if_neg h11, if_neg h12,
      if_neg h13, if_neg h14, if_neg h15, if_neg h16, if_neg h17, if_neg h18, hsw]
    simp

/-- C1 witness: the amended table theorem applied at the concrete in-vocabulary
code `1X` with score 2-2. -/
theorem evaluate_bet_meets_spec_table_witness :
    evaluate_bet "1X" 2 2 (2 + 2) = Except.ok (specWin "1X" 2 2) :=
  (evaluate_bet_meets_spec_table "1X" 2 2 (by decide) (by decide)).1 (by decide)

/-- C1 counterexample: `CSa-b` is outside the §4.1 vocabulary, yet
`evaluate_bet` does not return false on it — it raises (models the unguarded
`int('a')` at line 309), refuting "every code outside this vocabulary returns
false". -/
theorem evaluate_bet_unknown_code_cex :
    specVocab "CSa-b" = false ∧ evaluate_bet "CSa-b" 0 1 1 ≠ Except.ok false := by
  refine ⟨by decide, fun h => ?_⟩
  rw [show evaluate_bet "CSa-b" 0 1 1 = Except.error "ValueError" from rfl] at h
  exact Except.noConfusion h

/-- C2: a `CS` code whose suffix has the right arity but non-integer fields
makes `evaluate_bet` raise `ValueError` (the unguarded `int(parts[0])` at line
309), contradicting the spec's "must not throw: evaluator returns false". -/
theorem evaluate_bet_malformed_cs_raises :
    evaluate_bet "CSa-b" 2 2 4 = Except.error "ValueError" := rfl

/-! ### Event-key distinctness and state lemmas -/

lemma str_append_cancel (a b c : String) (h : a ++ b = a ++ c) : b = c := by
  have hd := congrArg String.data h
  simp only [String.data_append] at hd
  exact String.ext (List.append_cancel_left hd)

lemma str_append_assoc (a b c : String) : a ++ b ++ c = a ++ (b ++ c) := by
  apply String.ext
  simp [String.data_append, List.append_assoc]

lemma scoreKey_shape (mid : String) (h a : Int) :
    scoreKey mid h a = mid ++ ("_score_" ++ (toString h ++ ("_" ++ toString a))) := by
  simp [scoreKey, str_append_assoc]

lemma startedKey_ne_scoreKey (mid : String) (h a : Int) :
    startedKey mid ≠ scoreKey mid h a := by
  rw [scoreKey_shape, startedKey]
  intro he
  have h2 := congrArg String.data (str_append_cancel _ _ _ he)
  simp only [String.data_append, List.cons_append, List.nil_append] at h2
  injection h2 with _ h3
  injection h3 with _ h4
  injection h4 with h5 _
  exact absurd h5 (by decide)

lemma finishedKey_ne_startedKey (mid : String) :
    finishedKey mid ≠ startedKey mid := by
  rw [finishedKey, startedKey]
  intro he
  have h2 := str_append_cancel _ _ _ he
  exact absurd h2 (by decide)

lemma finishedKey_ne_scoreKey (mid : String) (h a : Int) :
    finishedKey mid ≠ scoreKey mid h a := by
  rw [scoreKey_shape, finishedKey]
  intro he
  have h2 := congrArg String.data (str_append_cancel _ _ _ he)
  simp only [String.data_append, List.cons_append, List.nil_append] at h2
  injection h2 with _ h3
  injection h3 with h4 _
  exact absurd h4 (by decide)

lemma mem_insertKey (k k' : String) (l : List String) :
    k ∈ insertKey k' l ↔ k = k' ∨ k ∈ l := by
  unfold insertKey
  split
  · constructor
    · intro h; exact Or.inr h
    · rintro (rfl | h)
      · assumption
      · exact h
  · simp [List.mem_cons]

lemma lookupPrev_setPrev_same (l : List (String × Int × Int)) (mid : String) (h a : Int) :
    lookupPrev (setPrev l mid h a) mid = (h, a) := by
  simp [lookupPrev, setPrev, List.find?]

lemma lookupPrev_setPrev_other (l : List (String × Int × Int)) (mid mid' : String)
    (h a : Int) (hne : mid' ≠ mid) :
    lookupPrev (setPrev l mid h a) mid' = lookupPrev l mid' := by
  simp [lookupPrev, setPrev, List.find?, Ne.symm hne]

/-- C5: the four-cycle scenario B emits exactly one `started` fan-out in cycle
1, one home-goal fan-out in cycle 2, nothing in cycle 3 (dedup holds), one
`won` fan-out in cycle 4, and no cycle raises; three notifications reach each
device in total. -/
theorem scenarioB_end_to_end :
    scenB1.2.1 = [startedNotif "M1" "Alpha" "Beta" devA, startedNotif "M1" "Alpha" "Beta" devB] ∧
    scenB2.2.1 = [goalHomeNotif "M1" "Alpha" "Beta" 1 0 devA,
      goalHomeNotif "M1" "Alpha" "Beta" 1 0 devB] ∧
    scenB3.2.1 = [] ∧
    scenB4.2.1 = [wonNotif "M1" "Alpha" "Beta" 1 0 devA, wonNotif "M1" "Alpha" "Beta" 1 0 devB] ∧
    scenB1.2.2 = none ∧ scenB2.2.2 = none ∧ scenB3.2.2 = none ∧ scenB4.2.2 = none ∧
    ((scenB1.2.1 ++ scenB2.2.1 ++ scenB3.2.1 ++ scenB4.2.1).filter
      (fun n => n.token = "device-token-A")).length = 3 ∧
    ((scenB1.2.1 ++ scenB2.2.1 ++ scenB3.2.1 ++ scenB4.2.1).filter
      (fun n => n.token = "device-token-B")).length = 3 := by
  decide

/-- C3 counterexample: two distinct non-terminal tickets each bet on the same
`IN_PLAY` match in one cycle, yet the whole cycle fans out the kickoff event
only once (for the first ticket's bet) — the second ticket's fan-out is
suppressed by the event-level dedup, refuting "both fan-outs occur". -/
theorem same_event_two_tickets_single_fanout_cex :
    (process_matches [sampleMatch "M1" "IN_PLAY" 0 0]
        [⟨none, [⟨some "M1", some "1"⟩]⟩, ⟨none, [⟨some "M1", some "X"⟩]⟩]
        [devA] initState).2.1 =
      [startedNotif "M1" "Alpha" "Beta" devA] := by
  decide

/-- C7 counterexample: with a malformed `CS` bet on a finished match followed
by a ticket on a live match, the first run raises (aborting before the second
ticket) and the replayed identical snapshot then emits a notification, so the
second pass is not silent. -/
theorem replay_not_idempotent_cex :
    replayRun1.2.2 = some "ValueError" ∧ replayRun1.2.1 = [] ∧
    replayRun2.2.1 = [startedNotif "M2" "Alpha" "Beta" devA] := by
  decide

/-- C4 counterexample: a full-time score field present with value 0 is not
used as-is — Python's `or` treats 0 as falsy, so resolution falls back to the
half-time value 1. -/
theorem resolveScore_fulltime_zero_cex :
    resolveScore (some 0) (some 1) = 1 ∧ resolveScore (some 0) (some 1) ≠ 0 := by
  decide

/-- C4 amended: the current score prefers a present *non-zero* full-time
field; when the full-time field is absent or zero it falls back to a present
non-zero half-time field; and defaults to 0 when both are absent or zero. -/
theorem resolveScore_or_chain (ft ht : Option Int) :
    (∀ x, ft = some x → x ≠ 0 → resolveScore ft ht = x) ∧
    ((ft = none ∨ ft = some 0) → ∀ y, ht = some y → y ≠ 0 → resolveScore ft ht = y) ∧
    ((ft = none ∨ ft = some 0) → (ht = none ∨ ht = some 0) → resolveScore ft ht = 0) := by
  refine ⟨?_, ?_, ?_⟩
  · rintro x rfl hx
    simp [resolveScore, pyOrD, hx]
  · rintro (rfl | rfl) y rfl hy <;> simp [resolveScore, pyOrD, hy]
  · rintro (rfl | rfl) (rfl | rfl) <;> simp [resolveScore, pyOrD]

/-- C4 witness: the amended resolution theorem applied at full-time 2,
half-time 1. -/
theorem resolveScore_or_chain_witness : resolveScore (some 2) (some 1) = 2 :=
  (resolveScore_or_chain (some 2) (some 1)).1 2 rfl (by decide)

/-- C6: a ticket whose status is already won or lost contributes nothing to a
cycle — removing it from the ticket list leaves the state, every emitted
notification and the error outcome unchanged, whatever the snapshot, its bets
or the devices. -/
theorem terminal_ticket_emits_nothing (matchList : List MatchRec) (devices : List Device)
    (st : DetectorState) (t : Ticket) (ts1 ts2 : List Ticket)
    (h : t.status = some "won" ∨ t.status = some "lost") :
    process_matches matchList (ts1 ++ t :: ts2) devices st =
      process_matches matchList (ts1 ++ ts2) devices st := by
  induction ts1 generalizing st with
  | nil =>
    simp only [List.nil_append, process_matches, runTickets, processTicket, if_pos h]
  | cons t' ts1' ih =>
    simp only [List.cons_append, process_matches, runTickets]
    cases he : (processTicket matchList devices st t').2.2 with
    | none =>
      simp only [he, process_matches, List.append_eq] at ih ⊢
      rw [ih]
    | some e => simp [he]

/-- C6 witness: a won ticket with a live-match bet produces the same cycle
output as no ticket at all. -/
theorem terminal_ticket_emits_nothing_witness :
    process_matches [sampleMatch "M1" "IN_PLAY" 0 0]
        [⟨some "won", [⟨some "M1", some "1"⟩]⟩] [devA] initState =
      process_matches [sampleMatch "M1" "IN_PLAY" 0 0] [] [devA] initState :=
  terminal_ticket_emits_nothing [sampleMatch "M1" "IN_PLAY" 0 0] [devA] initState
    ⟨some "won", [⟨some "M1", some "1"⟩]⟩ [] [] (Or.inl rfl)

/-! ### Anatomy of one `processBet` step -/

lemma processBet_skip_none (matchList : List MatchRec) (devices : List Device)
    (st : DetectorState) (bet : Bet) (hb : bet.matchId = none) :
    processBet matchList devices st bet = (st, [], none) := by
  simp [processBet, hb]

lemma processBet_skip_empty (matchList : List MatchRec) (devices : List Device)
    (st : DetectorState) (bet : Bet) (hb : bet.matchId = some "") :
    processBet matchList devices st bet = (st, [], none) := by
  simp [processBet, hb]

lemma processBet_skip_nomatch (matchList : List MatchRec) (devices : List Device)
    (st : DetectorState) (bet : Bet) (mid : String) (hb : bet.matchId = some mid)
    (hne : mid ≠ "") (hfind : findMatch matchList mid = none) :
    processBet matchList devices st bet = (st, [], none) := by
  simp [processBet, hb, hne, hfind]

lemma processBet_resolved (matchList : List MatchRec) (devices : List Device)
    (st : DetectorState) (bet : Bet) (mid : String) (m : MatchRec)
    (hb : bet.matchId = some mid) (hne : mid ≠ "")
    (hfind : findMatch matchList mid = some m) :
    processBet matchList devices st bet =
      (let ht := m.homeTeamName.getD "Local"
       let aw := m.awayTeamName.getD "Visitante"
       let h := resolveScore m.ftHome m.htHome
       let a := resolveScore m.ftAway m.htAway
       let prev := lookupPrev st.prevScores mid
       let r1 := stepStarted devices mid ht aw m.status st
       let r2 := stepGoal devices mid ht aw m.status h a prev.1 prev.2 r1.1
       let st3 : DetectorState :=
         { r2.1 with prevScores := setPrev r2.1.prevScores mid h a }
       let r3 := stepFinished devices mid ht aw m.status (bet.selection.getD "1") h a st3
       (r3.1, r1.2 ++ r2.2 ++ r3.2.1, r3.2.2)) := by
  simp only [processBet, hb, if_neg hne, hfind]

lemma stepStarted_prevScores (devices : List Device) (mid ht aw : String)
    (status : Option String) (st : DetectorState) :
    (stepStarted devices mid ht aw status st).1.prevScores = st.prevScores := by
  unfold stepStarted
  split <;> rfl

lemma stepGoal_prevScores (devices : List Device) (mid ht aw : String)
    (status : Option String) (h a ph pa : Int) (st : DetectorState) :
    (stepGoal devices mid ht aw status h a ph pa st).1.prevScores = st.prevScores := by
  unfold stepGoal
  repeat' split
  all_goals rfl

lemma stepFinished_prevScores (devices : List Device) (mid ht aw : String)
    (status : Option String) (sel : String) (h a : Int) (st : DetectorState) :
    (stepFinished devices mid ht aw status sel h a st).1.prevScores = st.prevScores := by
  unfold stepFinished
  repeat' split
  all_goals rfl

lemma stepStarted_notified_mem (devices : List Device) (mid ht aw : String)
    (status : Option String) (st : DetectorState) (k : String) :
    k ∈ (stepStarted devices mid ht aw status st).1.notified ↔
      (k = startedKey mid ∧
        ((status = some "IN_PLAY" ∨ status = some "LIVE") ∧ startedKey mid ∉ st.notified)) ∨
      k ∈ st.notified := by
  unfold stepStarted
  split
  case isTrue hc => simp [mem_insertKey, hc]
  case isFalse hc => simp [hc]

lemma stepGoal_notified_mem (devices : List Device) (mid ht aw : String)
    (status : Option String) (h a ph pa : Int) (st : DetectorState) (k : String) :
    k ∈ (stepGoal devices mid ht aw status h a ph pa st).1.notified ↔
      (k = scoreKey mid h a ∧
        ((status = some "IN_PLAY" ∨ status = some "LIVE" ∨ status = some "PAUSED") ∧
          scoreKey mid h a ∉ st.notified) ∧ (h > ph ∨ a > pa)) ∨
      k ∈ st.notified := by
  unfold stepGoal
  split
  case isTrue hc =>
    split
    case isTrue hg => simp [mem_insertKey, hc, hg]
    case isFalse hg =>
      split
      case isTrue hg2 => simp [mem_insertKey, hc, hg, hg2]
      case isFalse hg2 => simp [hc, hg, hg2]
  case isFalse hc => simp [hc]

lemma stepFinished_notified_mono (devices : List Device) (mid ht aw : String)
    (status : Option String) (sel : String) (h a : Int) (st : DetectorState) (k : String)
    (hk : k ∈ st.notified) :
    k ∈ (stepFinished devices mid ht aw status sel h a st).1.notified := by
  unfold stepFinished
  repeat' split
  all_goals first
    | exact hk
    | exact (mem_insertKey _ _ _).mpr (Or.inr hk)

lemma filter_map_of_false {α : Type} (ds : List α) (f : α → Notif) (p : Notif → Bool)
    (hf : ∀ d, p (f d) = false) : (ds.map f).filter p = [] := by
  induction ds with
  | nil => rfl
  | cons d ds ih => simp [List.filter_cons, hf, ih]

lemma filter_map_of_true {α : Type} (ds : List α) (f : α → Notif) (p : Notif → Bool)
    (hf : ∀ d, p (f d) = true) : (ds.map f).filter p = ds.map f := by
  induction ds with
  | nil => rfl
  | cons d ds ih => simp [List.filter_cons, hf, ih]

lemma stepStarted_filter_goal (devices : List Device) (mid ht aw : String)
    (status : Option String) (st : DetectorState) :
    (stepStarted devices mid ht aw status st).2.filter (fun n => n.dataType = "goal") = [] := by
  unfold stepStarted
  split
  · exact filter_map_of_false _ _ _ (fun d => by simp [startedNotif])
  · rfl

lemma stepFinished_filter_goal (devices : List Device) (mid ht aw : String)
    (status : Option String) (sel : String) (h a : Int) (st : DetectorState) :
    (stepFinished devices mid ht aw status sel h a st).2.1.filter
      (fun n => n.dataType = "goal") = [] := by
  unfold stepFinished
  repeat' split
  all_goals first
    | rfl
    | exact filter_map_of_false _ _ _
        (fun d => by by_cases hw : ‹Bool› = true <;> simp [wonNotif, lostNotif, hw])

lemma stepGoal_filter_started (devices : List Device) (mid ht aw : String)
    (status : Option String) (h a ph pa : Int) (st : DetectorState) :
    (stepGoal devices mid ht aw status h a ph pa st).2.filter
      (fun n => n.dataType = "started") = [] := by
  unfold stepGoal
  repeat' split
  all_goals first
    | rfl
    | exact filter_map_of_false _ _ _ (fun d => by simp [goalHomeNotif, goalAwayNotif])

lemma stepFinished_filter_started (devices : List Device) (mid ht aw : String)
    (status : Option String) (sel : String) (h a : Int) (st : DetectorState) :
    (stepFinished devices mid ht aw status sel h a st).2.1.filter
      (fun n => n.dataType = "started") = [] := by
  unfold stepFinished
  repeat' split
  all_goals first
    | rfl
    | exact filter_map_of_false _ _ _
        (fun d => by by_cases hw : ‹Bool› = true <;> simp [wonNotif, lostNotif, hw])

/-- C9: the Score Tracker contract realized by `process_matches`: (a) a match
never stored reads as (0,0); (b) processing any bet that resolves to a match
overwrites the stored pair with the resolved current score, unconditionally;
(c) observing 1-0 then 2-0 on the same match stores (1,0) after the first
observation — which is exactly the previous pair the second observation
reads — and (2,0) after the second. -/
theorem score_tracker_contract :
    (∀ (l : List (String × Int × Int)) (mid : String),
        (∀ p ∈ l, p.1 ≠ mid) → lookupPrev l mid = (0, 0)) ∧
    (∀ (matchList : List MatchRec) (devices : List Device) (st : DetectorState)
        (bet : Bet) (mid : String) (m : MatchRec),
        bet.matchId = some mid → mid ≠ "" → findMatch matchList mid = some m →
        lookupPrev (processBet matchList devices st bet).1.prevScores mid =
          (resolveScore m.ftHome m.htHome, resolveScore m.ftAway m.htAway)) ∧
    (lookupPrev (processBet [sampleMatch "m1" "IN_PLAY" 1 0] [devA] initState
        ⟨some "m1", some "1"⟩).1.prevScores "m1" = (1, 0) ∧
     lookupPrev (processBet [sampleMatch "m1" "IN_PLAY" 2 0] [devA]
        (processBet [sampleMatch "m1" "IN_PLAY" 1 0] [devA] initState
          ⟨some "m1", some "1"⟩).1 ⟨some "m1", some "1"⟩).1.prevScores "m1" = (2, 0)) := by
  refine ⟨?_, ?_, by decide⟩
  · intro l mid hl
    cases hf : l.find? (fun p => p.1 = mid) with
    | none => simp [lookupPrev, hf]
    | some p =>
      have hp := List.find?_some hf
      have hmem := List.mem_of_find?_eq_some hf
      exact absurd (of_decide_eq_true hp) (hl p hmem)
  · intro matchList devices st bet mid m hb hne hfind
    rw [processBet_resolved matchList devices st bet mid m hb hne hfind]
    simp only [stepFinished_prevScores]
    exact lookupPrev_setPrev_same _ _ _ _

/-- C9 witness: the default (0,0) read for an unseen match, via the contract
theorem. -/
theorem score_tracker_contract_witness : lookupPrev [] "m1" = (0, 0) :=
  score_tracker_contract.1 [] "m1" (by simp)

/-- C8: in one bet-processing step on a resolved match, the goal notifications
are exactly: a full fan-out attributed to home when the status is live
(`IN_PLAY`/`LIVE`/`PAUSED`), the resulting-score key is fresh and the home
score increased; otherwise a fan-out attributed to away when the away score
increased; otherwise nothing. In particular a double increment yields exactly
one home-attributed fan-out, never two. -/
theorem goal_detection_characterization
    (matchList : List MatchRec) (devices : List Device) (st : DetectorState)
    (bet : Bet) (mid : String) (m : MatchRec)
    (hb : bet.matchId = some mid) (hne : mid ≠ "")
    (hfind : findMatch matchList mid = some m) :
    ((processBet matchList devices st bet).2.1.filter (fun n => n.dataType = "goal")) =
      (if (m.status = some "IN_PLAY" ∨ m.status = some "LIVE" ∨ m.status = some "PAUSED") ∧
          scoreKey mid (resolveScore m.ftHome m.htHome) (resolveScore m.ftAway m.htAway) ∉
            st.notified then
        if resolveScore m.ftHome m.htHome > (lookupPrev st.prevScores mid).1 then
          devices.map (goalHomeNotif mid (m.homeTeamName.getD "Local")
            (m.awayTeamName.getD "Visitante") (resolveScore m.ftHome m.htHome)
            (resolveScore m.ftAway m.htAway))
        else if resolveScore m.ftAway m.htAway > (lookupPrev st.prevScores mid).2 then
          devices.map (goalAwayNotif mid (m.homeTeamName.getD "Local")
            (m.awayTeamName.getD "Visitante") (resolveScore m.ftHome m.htHome)
            (resolveScore m.ftAway m.htAway))
        else []
      else []) := by
  rw [processBet_resolved matchList devices st bet mid m hb hne hfind]
  simp only [List.filter_append, stepStarted_filter_goal, stepFinished_filter_goal,
    List.nil_append, List.append_nil]
  have hkiff : scoreKey mid (resolveScore m.ftHome m.htHome) (resolveScore m.ftAway m.htAway) ∈
      (stepStarted devices mid (m.homeTeamName.getD "Local") (m.awayTeamName.getD "Visitante")
        m.status st).1.notified ↔
      scoreKey mid (resolveScore m.ftHome m.htHome) (resolveScore m.ftAway m.htAway) ∈
        st.notified := by
    rw [stepStarted_notified_mem]
    simp [(startedKey_ne_scoreKey mid (resolveScore m.ftHome m.htHome)
      (resolveScore m.ftAway m.htAway)).symm]
  unfold stepGoal
  by_cases hc : (m.status = some "IN_PLAY" ∨ m.status = some "LIVE" ∨
      m.status = some "PAUSED") ∧
      scoreKey mid (resolveScore m.ftHome m.htHome) (resolveScore m.ftAway m.htAway) ∉
        st.notified
  · have hc' := And.intro hc.1 (fun hmem => hc.2 (hkiff.mp hmem))
    rw [if_pos hc', if_pos hc]
    by_cases hh : resolveScore m.ftHome m.htHome > (lookupPrev st.prevScores mid).1
    · rw [if_pos hh, if_pos hh]
      exact filter_map_of_true _ _ _ (fun d => by simp [goalHomeNotif])
    · rw [if_neg hh, if_neg hh]
      by_cases ha : resolveScore m.ftAway m.htAway > (lookupPrev st.prevScores mid).2
      · rw [if_pos ha, if_pos ha]
        exact filter_map_of_true _ _ _ (fun d => by simp [goalAwayNotif])
      · rw [if_neg ha, if_neg ha]
        rfl
  · have hc' : ¬((m.status = some "IN_PLAY" ∨ m.status = some "LIVE" ∨
        m.status = some "PAUSED") ∧
        scoreKey mid (resolveScore m.ftHome m.htHome) (resolveScore m.ftAway m.htAway) ∉
          (stepStarted devices mid (m.homeTeamName.getD "Local")
            (m.awayTeamName.getD "Visitante") m.status st).1.notified) := by
      intro hcc
      exact hc ⟨hcc.1, fun hmem => hcc.2 (hkiff.mpr hmem)⟩
    rw [if_neg hc', if_neg hc]
    rfl

/-- C8 witness: a live match moving from stored (0,0) to 1-0 fans out exactly
one home-goal notification per device. -/
theorem goal_detection_characterization_witness :
    ((processBet [sampleMatch "M1" "IN_PLAY" 1 0] [devA] initState
        ⟨some "M1", some "1"⟩).2.1.filter (fun n => n.dataType = "goal")) =
      [goalHomeNotif "M1" "Alpha" "Beta" 1 0 devA] := by
  rw [goal_detection_characterization [sampleMatch "M1" "IN_PLAY" 1 0] [devA] initState
    ⟨some "M1", some "1"⟩ "M1" (sampleMatch "M1" "IN_PLAY" 1 0) rfl (by decide) (by decide)]
  decide

lemma stepStarted_filter_wl (devices : List Device) (mid ht aw : String)
    (status : Option String) (st : DetectorState) :
    (stepStarted devices mid ht aw status st).2.filter
      (fun n => n.dataType = "won" || n.dataType = "lost") = [] := by
  unfold stepStarted
  split
  · exact filter_map_of_false _ _ _ (fun d => by simp [startedNotif])
  · rfl

lemma stepGoal_filter_wl (devices : List Device) (mid ht aw : String)
    (status : Option String) (h a ph pa : Int) (st : DetectorState) :
    (stepGoal devices mid ht aw status h a ph pa st).2.filter
      (fun n => n.dataType = "won" || n.dataType = "lost") = [] := by
  unfold stepGoal
  repeat' split
  all_goals first
    | rfl
    | exact filter_map_of_false _ _ _ (fun d => by simp [goalHomeNotif, goalAwayNotif])

/-- C10: a bet without a selection field on a `FINISHED` match (fresh finished
key) is evaluated as selection `1`: the cycle fans out `won` exactly when the
home side leads the resolved final score, and `lost` otherwise — it is neither
skipped nor unconditionally lost, and nothing is raised. -/
theorem missing_selection_defaults_home_win
    (matchList : List MatchRec) (devices : List Device) (st : DetectorState)
    (bet : Bet) (mid : String) (m : MatchRec)
    (hb : bet.matchId = some mid) (hne : mid ≠ "")
    (hfind : findMatch matchList mid = some m)
    (hsel : bet.selection = none)
    (hstat : m.status = some "FINISHED")
    (hkey : finishedKey mid ∉ st.notified) :
    ((processBet matchList devices st bet).2.1.filter
        (fun n => n.dataType = "won" || n.dataType = "lost")) =
      devices.map (fun d =>
        if resolveScore m.ftHome m.htHome > resolveScore m.ftAway m.htAway then
          wonNotif mid (m.homeTeamName.getD "Local") (m.awayTeamName.getD "Visitante")
            (resolveScore m.ftHome m.htHome) (resolveScore m.ftAway m.htAway) d
        else
          lostNotif mid (m.homeTeamName.getD "Local") (m.awayTeamName.getD "Visitante")
            (resolveScore m.ftHome m.htHome) (resolveScore m.ftAway m.htAway) d) ∧
    (processBet matchList devices st bet).2.2 = none := by
  rw [processBet_resolved matchList devices st bet mid m hb hne hfind]
  simp only [List.filter_append, stepStarted_filter_wl, stepGoal_filter_wl,
    List.nil_append, hsel, Option.getD_none]
  have hkey3 : finishedKey mid ∉
      (stepGoal devices mid (m.homeTeamName.getD "Local") (m.awayTeamName.getD "Visitante")
        m.status (resolveScore m.ftHome m.htHome) (resolveScore m.ftAway m.htAway)
        (lookupPrev st.prevScores mid).1 (lookupPrev st.prevScores mid).2
        (stepStarted devices mid (m.homeTeamName.getD "Local")
          (m.awayTeamName.getD "Visitante") m.status st).1).1.notified := by
    intro hmem
    rcases (stepGoal_notified_mem _ _ _ _ _ _ _ _ _ _ _).mp hmem with ⟨heq, _⟩ | hmem2
    · exact absurd heq (finishedKey_ne_scoreKey mid _ _)
    · rcases (stepStarted_notified_mem _ _ _ _ _ _ _).mp hmem2 with ⟨heq, _⟩ | hmem3
      · exact absurd heq (finishedKey_ne_startedKey mid)
      · exact hkey hmem3
  unfold stepFinished
  rw [if_pos (And.intro hstat hkey3)]
  rw [show evaluate_bet "1" (resolveScore m.ftHome m.htHome) (resolveScore m.ftAway m.htAway)
      (resolveScore m.ftHome m.htHome + resolveScore m.ftAway m.htAway) =
    Except.ok (decide (resolveScore m.ftHome m.htHome > resolveScore m.ftAway m.htAway))
    from rfl]
  constructor
  · rw [filter_map_of_true _ _ _ (fun d => by
      by_cases hw : resolveScore m.ftHome m.htHome > resolveScore m.ftAway m.htAway <;>
        simp [wonNotif, lostNotif, hw])]
    apply List.map_congr_left
    intro d _
    by_cases hw : resolveScore m.ftHome m.htHome > resolveScore m.ftAway m.htAway <;>
      simp [hw]
  · rfl

/-- C10 witness: a selection-less bet on a finished 2-1 match fans out `won`. -/
theorem missing_selection_defaults_home_win_witness :
    ((processBet [sampleMatch "M1" "FINISHED" 2 1] [devA] initState
        ⟨some "M1", none⟩).2.1.filter
      (fun n => n.dataType = "won" || n.dataType = "lost")) =
      [wonNotif "M1" "Alpha" "Beta" 2 1 devA] := by
  rw [(missing_selection_defaults_home_win [sampleMatch "M1" "FINISHED" 2 1] [devA] initState
    ⟨some "M1", none⟩ "M1" (sampleMatch "M1" "FINISHED" 2 1) rfl (by decide) (by decide) rfl
    (by decide) (by decide)).1]
  decide

lemma stepFinished_not_finished {status : Option String} (hstat : status ≠ some "FINISHED")
    (devices : List Device) (mid ht aw sel : String) (h a : Int) (st : DetectorState) :
    stepFinished devices mid ht aw status sel h a st = (st, [], none) := by
  unfold stepFinished
  rw [if_neg (fun hc => hstat hc.1)]

lemma stepStarted_skip {mid : String} {st : DetectorState}
    (hmem : startedKey mid ∈ st.notified) (devices : List Device) (ht aw : String)
    (status : Option String) :
    stepStarted devices mid ht aw status st = (st, []) := by
  unfold stepStarted
  rw [if_neg (fun hc => hc.2 hmem)]

lemma stepStarted_fire {mid : String} {status : Option String} {st : DetectorState}
    (hstatus : status = some "IN_PLAY" ∨ status = some "LIVE")
    (hkey : startedKey mid ∉ st.notified) (devices : List Device) (ht aw : String) :
    stepStarted devices mid ht aw status st =
      ({ st with notified := insertKey (startedKey mid) st.notified },
       devices.map (startedNotif mid ht aw)) := by
  unfold stepStarted
  rw [if_pos (And.intro hstatus hkey)]

lemma processBet_err_none_of_not_finished (matchList : List MatchRec) (devices : List Device)
    (st : DetectorState) (bet : Bet) (mid : String) (m : MatchRec)
    (hb : bet.matchId = some mid) (hne : mid ≠ "")
    (hfind : findMatch matchList mid = some m) (hstat : m.status ≠ some "FINISHED") :
    (processBet matchList devices st bet).2.2 = none := by
  rw [processBet_resolved matchList devices st bet mid m hb hne hfind]
  simp only [stepFinished_not_finished hstat]

lemma processBet_started_mem (matchList : List MatchRec) (devices : List Device)
    (st : DetectorState) (bet : Bet) (mid : String) (m : MatchRec)
    (hb : bet.matchId = some mid) (hne : mid ≠ "")
    (hfind : findMatch matchList mid = some m)
    (hstatus : m.status = some "IN_PLAY" ∨ m.status = some "LIVE") :
    startedKey mid ∈ (processBet matchList devices st bet).1.notified := by
  rw [processBet_resolved matchList devices st bet mid m hb hne hfind]
  simp only []
  apply stepFinished_notified_mono
  show startedKey mid ∈ (stepGoal _ _ _ _ _ _ _ _ _ _).1.notified
  rw [stepGoal_notified_mem]
  right
  rw [stepStarted_notified_mem]
  by_cases hkey : startedKey mid ∈ st.notified
  · right; exact hkey
  · left; exact ⟨rfl, hstatus, hkey⟩

/-! ### Replay idempotence machinery (C7) -/

lemma stepStarted_idle {mid : String} {status : Option String} {st : DetectorState}
    (hc : ¬((status = some "IN_PLAY" ∨ status = some "LIVE") ∧
      startedKey mid ∉ st.notified)) (devices : List Device) (ht aw : String) :
    stepStarted devices mid ht aw status st = (st, []) := by
  unfold stepStarted
  rw [if_neg hc]

lemma stepGoal_idle {h ph a pa : Int} (hp1 : ¬h > ph) (hp2 : ¬a > pa)
    (devices : List Device) (mid ht aw : String) (status : Option String)
    (st : DetectorState) :
    stepGoal devices mid ht aw status h a ph pa st = (st, []) := by
  unfold stepGoal
  by_cases hc : (status = some "IN_PLAY" ∨ status = some "LIVE" ∨
      status = some "PAUSED") ∧ scoreKey mid h a ∉ st.notified
  · rw [if_pos hc, if_neg hp1, if_neg hp2]
  · rw [if_neg hc]

lemma stepFinished_idle {mid : String} {status : Option String} {st : DetectorState}
    (hc : ¬(status = some "FINISHED" ∧ finishedKey mid ∉ st.notified))
    (devices : List Device) (ht aw sel : String) (h a : Int) :
    stepFinished devices mid ht aw status sel h a st = (st, [], none) := by
  unfold stepFinished
  rw [if_neg hc]

lemma stepFinished_finished_mem (devices : List Device) (mid ht aw : String)
    {status : Option String} (hstat : status = some "FINISHED") (sel : String)
    (h a : Int) (st : DetectorState) :
    finishedKey mid ∈ (stepFinished devices mid ht aw status sel h a st).1.notified := by
  unfold stepFinished
  by_cases hc : status = some "FINISHED" ∧ finishedKey mid ∉ st.notified
  · rw [if_pos hc]
    cases hev : evaluate_bet sel h a (h + a) <;>
      exact (mem_insertKey _ _ _).mpr (Or.inl rfl)
  · rw [if_neg hc]
    exact not_not.mp (fun hn => hc ⟨hstat, hn⟩)

lemma processBet_prev_overwrite (matchList : List MatchRec) (devices : List Device)
    (st : DetectorState) (bet : Bet) (mid : String) (m : MatchRec)
    (hb : bet.matchId = some mid) (hne : mid ≠ "")
    (hfind : findMatch matchList mid = some m) :
    lookupPrev (processBet matchList devices st bet).1.prevScores mid =
      (resolveScore m.ftHome m.htHome, resolveScore m.ftAway m.htAway) := by
  rw [processBet_resolved matchList devices st bet mid m hb hne hfind]
  simp only [stepFinished_prevScores]
  exact lookupPrev_setPrev_same _ _ _ _

lemma processBet_finished_mem (matchList : List MatchRec) (devices : List Device)
    (st : DetectorState) (bet : Bet) (mid : String) (m : MatchRec)
    (hb : bet.matchId = some mid) (hne : mid ≠ "")
    (hfind : findMatch matchList mid = some m) (hstat : m.status = some "FINISHED") :
    finishedKey mid ∈ (processBet matchList devices st bet).1.notified := by
  rw [processBet_resolved matchList devices st bet mid m hb hne hfind]
  exact stepFinished_finished_mem _ _ _ _ hstat _ _ _ _

lemma processBet_notified_mono (matchList : List MatchRec) (devices : List Device)
    (st : DetectorState) (b : Bet) (k : String) (hk : k ∈ st.notified) :
    k ∈ (processBet matchList devices st b).1.notified := by
  cases hbm : b.matchId with
  | none => rw [processBet_skip_none _ _ _ _ hbm]; exact hk
  | some mid =>
    by_cases hne : mid = ""
    · subst hne
      rw [processBet_skip_empty _ _ _ _ hbm]
      exact hk
    · cases hfind : findMatch matchList mid with
      | none =>
        rw [processBet_skip_nomatch _ _ _ _ _ hbm hne hfind]
        exact hk
      | some m =>
        rw [processBet_resolved _ _ _ _ _ _ hbm hne hfind]
        apply stepFinished_notified_mono
        show k ∈ (stepGoal _ _ _ _ _ _ _ _ _ _).1.notified
        rw [stepGoal_notified_mem]
        right
        rw [stepStarted_notified_mem]
        right
        exact hk

lemma processBet_prev_cases (matchList : List MatchRec) (devices : List Device)
    (st : DetectorState) (b : Bet) (mid' : String) :
    lookupPrev (processBet matchList devices st b).1.prevScores mid' =
      lookupPrev st.prevScores mid' ∨
    (∃ m', findMatch matchList mid' = some m' ∧
      lookupPrev (processBet matchList devices st b).1.prevScores mid' =
        (resolveScore m'.ftHome m'.htHome, resolveScore m'.ftAway m'.htAway)) := by
  cases hbm : b.matchId with
  | none => left; rw [processBet_skip_none _ _ _ _ hbm]
  | some mid =>
    by_cases hne : mid = ""
    · subst hne
      left
      rw [processBet_skip_empty _ _ _ _ hbm]
    · cases hfind : findMatch matchList mid with
      | none =>
        left
        rw [processBet_skip_nomatch _ _ _ _ _ hbm hne hfind]
      | some m =>
        by_cases hmm : mid' = mid
        · subst hmm
          right
          exact ⟨m, hfind, processBet_prev_overwrite matchList devices st b mid' m hbm hne hfind⟩
        · left
          rw [processBet_resolved _ _ _ _ _ _ hbm hne hfind]
          simp only [stepFinished_prevScores]
          rw [lookupPrev_setPrev_other _ _ _ _ _ hmm, stepGoal_prevScores,
            stepStarted_prevScores]

lemma betStable_of_obs {matchList : List MatchRec} {st st' : DetectorState} {b : Bet}
    (h1 : st'.notified = st.notified)
    (h2 : ∀ mid, lookupPrev st'.prevScores mid = lookupPrev st.prevScores mid)
    (hst : BetStable matchList st b) : BetStable matchList st' b := by
  intro mid m hbm hne hfind
  obtain ⟨hsta, hprev, hfin⟩ := hst mid m hbm hne hfind
  refine ⟨fun hl => ?_, (h2 mid).trans hprev, fun hf => ?_⟩
  · rw [h1]; exact hsta hl
  · rw [h1]; exact hfin hf

lemma processBet_stable_noop (matchList : List MatchRec) (devices : List Device)
    (st : DetectorState) (b : Bet) (hst : BetStable matchList st b) :
    (processBet matchList devices st b).2.1 = [] ∧
    (processBet matchList devices st b).2.2 = none ∧
    (processBet matchList devices st b).1.notified = st.notified ∧
    (∀ mid', lookupPrev (processBet matchList devices st b).1.prevScores mid' =
      lookupPrev st.prevScores mid') := by
  cases hbm : b.matchId with
  | none => rw [processBet_skip_none _ _ _ _ hbm]; exact ⟨rfl, rfl, rfl, fun _ => rfl⟩
  | some mid =>
    by_cases hne : mid = ""
    · subst hne
      rw [processBet_skip_empty _ _ _ _ hbm]
      exact ⟨rfl, rfl, rfl, fun _ => rfl⟩
    · cases hfind : findMatch matchList mid with
      | none =>
        rw [processBet_skip_nomatch _ _ _ _ _ hbm hne hfind]
        exact ⟨rfl, rfl, rfl, fun _ => rfl⟩
      | some m =>
        obtain ⟨hsta, hprev, hfin⟩ := hst mid m hbm hne hfind
        rw [processBet_resolved _ _ _ _ _ _ hbm hne hfind]
        have hg1 : ¬resolveScore m.ftHome m.htHome > (lookupPrev st.prevScores mid).1 := by
          rw [hprev]; exact lt_irrefl _
        have hg2 : ¬resolveScore m.ftAway m.htAway > (lookupPrev st.prevScores mid).2 := by
          rw [hprev]; exact lt_irrefl _
        have e3cond : ¬(m.status = some "FINISHED" ∧ finishedKey mid ∉
            (DetectorState.mk st.notified
              (setPrev st.prevScores mid (resolveScore m.ftHome m.htHome)
                (resolveScore m.ftAway m.htAway))).notified) :=
          fun hc => hc.2 (hfin hc.1)
        simp only [stepStarted_idle (fun hc => hc.2 (hsta hc.1)),
          stepGoal_idle hg1 hg2, stepFinished_idle e3cond]
        refine ⟨by trivial, by trivial, by trivial, fun mid' => ?_⟩
        by_cases hmm : mid' = mid
        · subst hmm
          rw [lookupPrev_setPrev_same, hprev]
        · rw [lookupPrev_setPrev_other _ _ _ _ _ hmm]

lemma processBet_saturates (matchList : List MatchRec) (devices : List Device)
    (st : DetectorState) (b : Bet) :
    BetStable matchList (processBet matchList devices st b).1 b := by
  intro mid m hbm hne hfind
  refine ⟨fun hl => ?_, ?_, fun hf => ?_⟩
  · exact processBet_started_mem matchList devices st b mid m hbm hne hfind hl
  · exact processBet_prev_overwrite matchList devices st b mid m hbm hne hfind
  · exact processBet_finished_mem matchList devices st b mid m hbm hne hfind hf

lemma processBet_preserves_stable (matchList : List MatchRec) (devices : List Device)
    (st : DetectorState) (b b2 : Bet) (hst : BetStable matchList st b) :
    BetStable matchList (processBet matchList devices st b2).1 b := by
  intro mid m hbm hne hfind
  obtain ⟨hsta, hprev, hfin⟩ := hst mid m hbm hne hfind
  refine ⟨fun hl => processBet_notified_mono _ _ _ _ _ (hsta hl), ?_,
    fun hf => processBet_notified_mono _ _ _ _ _ (hfin hf)⟩
  rcases processBet_prev_cases matchList devices st b2 mid with heq | ⟨m', hfind', hval⟩
  · rw [heq]; exact hprev
  · rw [hfind] at hfind'
    injection hfind' with hm'
    rw [hval, ← hm']

lemma runBets_stable_noop (matchList : List MatchRec) (devices : List Device)
    (bs : List Bet) (st : DetectorState)
    (hall : ∀ b ∈ bs, BetStable matchList st b) :
    (runBets matchList devices bs st).2.1 = [] ∧
    (runBets matchList devices bs st).2.2 = none ∧
    (runBets matchList devices bs st).1.notified = st.notified ∧
    (∀ mid', lookupPrev (runBets matchList devices bs st).1.prevScores mid' =
      lookupPrev st.prevScores mid') := by
  induction bs generalizing st with
  | nil => exact ⟨rfl, rfl, rfl, fun _ => rfl⟩
  | cons b bs ih =>
    obtain ⟨hs1, hs2, hs3, hs4⟩ :=
      processBet_stable_noop matchList devices st b (hall b (by simp))
    have hall' : ∀ b' ∈ bs, BetStable matchList (processBet matchList devices st b).1 b' :=
      fun b' hb' => betStable_of_obs hs3 hs4 (hall b' (by simp [hb']))
    obtain ⟨h1, h2, h3, h4⟩ := ih (processBet matchList devices st b).1 hall'
    simp only [runBets, hs2]
    exact ⟨by rw [hs1, h1]; rfl, h2, by rw [h3, hs3], fun mid' => (h4 mid').trans (hs4 mid')⟩

lemma runTickets_stable_noop (matchList : List MatchRec) (devices : List Device)
    (ts : List Ticket) (st : DetectorState)
    (hall : TicketsStable matchList st ts) :
    (runTickets matchList devices ts st).2.1 = [] ∧
    (runTickets matchList devices ts st).2.2 = none ∧
    (runTickets matchList devices ts st).1.notified = st.notified ∧
    (∀ mid', lookupPrev (runTickets matchList devices ts st).1.prevScores mid' =
      lookupPrev st.prevScores mid') := by
  induction ts generalizing st with
  | nil => exact ⟨rfl, rfl, rfl, fun _ => rfl⟩
  | cons t ts ih =>
    by_cases hterm : t.status = some "won" ∨ t.status = some "lost"
    · have hstep : processTicket matchList devices st t = (st, [], none) := by
        unfold processTicket
        rw [if_pos hterm]
      have hall' : TicketsStable matchList st ts :=
        fun t' ht' => hall t' (by simp [ht'])
      obtain ⟨h1, h2, h3, h4⟩ := ih st hall'
      simp only [runTickets, hstep]
      exact ⟨by rw [h1]; rfl, h2, h3, h4⟩
    · have hstep : processTicket matchList devices st t =
          runBets matchList devices t.bets st := by
        unfold processTicket
        rw [if_neg hterm]
      obtain ⟨hs1, hs2, hs3, hs4⟩ :=
        runBets_stable_noop matchList devices t.bets st (hall t (by simp) hterm)
      have hall' : TicketsStable matchList (runBets matchList devices t.bets st).1 ts :=
        fun t' ht' hterm' b hb =>
          betStable_of_obs hs3 hs4 (hall t' (by simp [ht']) hterm' b hb)
      obtain ⟨h1, h2, h3, h4⟩ := ih (runBets matchList devices t.bets st).1 hall'
      simp only [runTickets, hstep, hs2]
      exact ⟨by rw [hs1, h1]; rfl, h2, by rw [h3, hs3], fun mid' => (h4 mid').trans (hs4 mid')⟩

lemma runBets_saturates (matchList : List MatchRec) (devices : List Device)
    (bs : List Bet) (st : DetectorState)
    (herr : (runBets matchList devices bs st).2.2 = none) :
    (∀ b0, BetStable matchList st b0 →
      BetStable matchList (runBets matchList devices bs st).1 b0) ∧
    (∀ b ∈ bs, BetStable matchList (runBets matchList devices bs st).1 b) := by
  induction bs generalizing st with
  | nil => exact ⟨fun b0 h => h, fun b hb => absurd hb (List.not_mem_nil b)⟩
  | cons b bs ih =>
    cases he : (processBet matchList devices st b).2.2 with
    | some e =>
      rw [runBets] at herr
      simp only [he] at herr
      exact Option.noConfusion herr
    | none =>
      rw [runBets] at herr ⊢
      simp only [he] at herr ⊢
      obtain ⟨hpres, hmem⟩ := ih (processBet matchList devices st b).1 herr
      refine ⟨fun b0 h0 => hpres b0 (processBet_preserves_stable _ _ _ _ _ h0), ?_⟩
      intro b' hb'
      rcases List.mem_cons.mp hb' with rfl | hb2
      · exact hpres b' (processBet_saturates matchList devices st b')
      · exact hmem b' hb2

lemma runTickets_saturates (matchList : List MatchRec) (devices : List Device)
    (ts : List Ticket) (st : DetectorState)
    (herr : (runTickets matchList devices ts st).2.2 = none) :
    (∀ b0, BetStable matchList st b0 →
      BetStable matchList (runTickets matchList devices ts st).1 b0) ∧
    TicketsStable matchList (runTickets matchList devices ts st).1 ts := by
  induction ts generalizing st with
  | nil => exact ⟨fun b0 h => h, fun t ht => absurd ht (List.not_mem_nil t)⟩
  | cons t ts ih =>
    by_cases hterm : t.status = some "won" ∨ t.status = some "lost"
    · have hstep : processTicket matchList devices st t = (st, [], none) := by
        unfold processTicket
        rw [if_pos hterm]
      rw [runTickets] at herr ⊢
      simp only [hstep] at herr ⊢
      obtain ⟨hpres, hstab⟩ := ih st herr
      refine ⟨hpres, ?_⟩
      intro t' ht' hterm' b hb
      rcases List.mem_cons.mp ht' with rfl | ht2
      · exact absurd hterm hterm'
      · exact hstab t' ht2 hterm' b hb
    · have hstep : processTicket matchList devices st t =
          runBets matchList devices t.bets st := by
        unfold processTicket
        rw [if_neg hterm]
      rw [runTickets] at herr ⊢
      simp only [hstep] at herr ⊢
      cases he : (runBets matchList devices t.bets st).2.2 with
      | some e =>
        simp only [he] at herr
        exact Option.noConfusion herr
      | none =>
        simp only [he] at herr ⊢
        obtain ⟨hpres1, hmem1⟩ := runBets_saturates matchList devices t.bets st he
        obtain ⟨hpres2, hstab2⟩ := ih (runBets matchList devices t.bets st).1 herr
        refine ⟨fun b0 h0 => hpres2 b0 (hpres1 b0 h0), ?_⟩
        intro t' ht' hterm' b hb
        rcases List.mem_cons.mp ht' with rfl | ht2
        · exact hpres2 b (hmem1 b hb)
        · exact hstab2 t' ht2 hterm' b hb

/-- C7 amended: replaying the identical snapshot immediately after a run that
completed without raising emits zero notifications (and again does not raise).
The original unconditional claim fails when the first run raises mid-cycle: a
later ticket never reached in run one can still fire on the replay. -/
theorem replay_after_clean_run_silent (matchList : List MatchRec) (tickets : List Ticket)
    (devices : List Device) (st : DetectorState)
    (h : (process_matches matchList tickets devices st).2.2 = none) :
    (process_matches matchList tickets devices
        (process_matches matchList tickets devices st).1).2.1 = [] ∧
    (process_matches matchList tickets devices
        (process_matches matchList tickets devices st).1).2.2 = none := by
  have hsat := (runTickets_saturates matchList devices tickets st h).2
  have hres := runTickets_stable_noop matchList devices tickets _ hsat
  exact ⟨hres.1, hres.2.1⟩

/-- C7 witness: a clean first cycle on scenario-B inputs makes the replay
silent. -/
theorem replay_after_clean_run_silent_witness :
    (process_matches [sampleMatch "M1" "IN_PLAY" 0 0] [scenTicket] [devA]
        (process_matches [sampleMatch "M1" "IN_PLAY" 0 0] [scenTicket] [devA]
          initState).1).2.1 = [] :=
  (replay_after_clean_run_silent [sampleMatch "M1" "IN_PLAY" 0 0] [scenTicket] [devA]
    initState (by decide)).1

lemma stepGoal_skip {mid : String} {h a : Int} {st : DetectorState}
    (hmem : scoreKey mid h a ∈ st.notified) (devices : List Device) (ht aw : String)
    (status : Option String) (ph pa : Int) :
    stepGoal devices mid ht aw status h a ph pa st = (st, []) := by
  unfold stepGoal
  rw [if_neg (fun hc => hc.2 hmem)]

lemma stepFinished_skip {mid : String} {nt : List String}
    (hmem : finishedKey mid ∈ nt) (devices : List Device) (ht aw : String)
    (status : Option String) (sel : String) (h a : Int)
    (pv : List (String × Int × Int)) :
    stepFinished devices mid ht aw status sel h a ⟨nt, pv⟩ = (⟨nt, pv⟩, [], none) := by
  unfold stepFinished
  rw [if_neg (fun hc => hc.2 hmem)]

lemma stepFinished_fire_ok {sel : String} {h a : Int} {won : Bool}
    (hev : evaluate_bet sel h a (h + a) = Except.ok won)
    {status : Option String} {mid : String} {nt : List String}
    (hstat : status = some "FINISHED") (hkey : finishedKey mid ∉ nt)
    (devices : List Device) (ht aw : String) (pv : List (String × Int × Int)) :
    stepFinished devices mid ht aw status sel h a ⟨nt, pv⟩ =
      (⟨insertKey (finishedKey mid) nt, pv⟩,
       devices.map (fun d => if won then wonNotif mid ht aw h a d else lostNotif mid ht aw h a d),
       none) := by
  unfold stepFinished
  rw [if_pos (And.intro hstat hkey), hev]

lemma stepFinished_err_none_of_ok {sel : String} {h a : Int} {won : Bool}
    (hev : evaluate_bet sel h a (h + a) = Except.ok won)
    (devices : List Device) (mid ht aw : String) (status : Option String)
    (st : DetectorState) :
    (stepFinished devices mid ht aw status sel h a st).2.2 = none := by
  unfold stepFinished
  split
  · rw [hev]
  · rfl

lemma processBet_started_suppressed (matchList : List MatchRec) (devices : List Device)
    (st : DetectorState) (bet : Bet) (mid : String) (m : MatchRec)
    (hb : bet.matchId = some mid) (hne : mid ≠ "")
    (hfind : findMatch matchList mid = some m)
    (hmem : startedKey mid ∈ st.notified) :
    (processBet matchList devices st bet).2.1.filter
      (fun n => n.dataType = "started") = [] := by
  rw [processBet_resolved matchList devices st bet mid m hb hne hfind]
  simp only [stepStarted_skip hmem, List.filter_append, stepGoal_filter_started,
    stepFinished_filter_started, List.append_nil]
  rfl

lemma processBet_goal_suppressed (matchList : List MatchRec) (devices : List Device)
    (st : DetectorState) (bet : Bet) (mid : String) (m : MatchRec)
    (hb : bet.matchId = some mid) (hne : mid ≠ "")
    (hfind : findMatch matchList mid = some m)
    (hmem : scoreKey mid (resolveScore m.ftHome m.htHome) (resolveScore m.ftAway m.htAway) ∈
      st.notified) :
    (processBet matchList devices st bet).2.1.filter
      (fun n => n.dataType = "goal") = [] := by
  rw [processBet_resolved matchList devices st bet mid m hb hne hfind]
  have hmem1 : scoreKey mid (resolveScore m.ftHome m.htHome) (resolveScore m.ftAway m.htAway) ∈
      (stepStarted devices mid (m.homeTeamName.getD "Local") (m.awayTeamName.getD "Visitante")
        m.status st).1.notified := by
    rw [stepStarted_notified_mem]
    right
    exact hmem
  simp only [List.filter_append, stepStarted_filter_goal, stepGoal_skip hmem1,
    stepFinished_filter_goal, List.append_nil, List.nil_append]

lemma processBet_finished_suppressed (matchList : List MatchRec) (devices : List Device)
    (st : DetectorState) (bet : Bet) (mid : String) (m : MatchRec)
    (hb : bet.matchId = some mid) (hne : mid ≠ "")
    (hfind : findMatch matchList mid = some m)
    (hmem : finishedKey mid ∈ st.notified) :
    (processBet matchList devices st bet).2.1.filter
      (fun n => n.dataType = "won" || n.dataType = "lost") = [] ∧
    (processBet matchList devices st bet).2.2 = none := by
  rw [processBet_resolved matchList devices st bet mid m hb hne hfind]
  have hmem3 : finishedKey mid ∈
      (stepGoal devices mid (m.homeTeamName.getD "Local") (m.awayTeamName.getD "Visitante")
        m.status (resolveScore m.ftHome m.htHome) (resolveScore m.ftAway m.htAway)
        (lookupPrev st.prevScores mid).1 (lookupPrev st.prevScores mid).2
        (stepStarted devices mid (m.homeTeamName.getD "Local")
          (m.awayTeamName.getD "Visitante") m.status st).1).1.notified := by
    rw [stepGoal_notified_mem]
    right
    rw [stepStarted_notified_mem]
    right
    exact hmem
  simp only [List.filter_append, stepStarted_filter_wl, stepGoal_filter_wl,
    stepFinished_skip hmem3, List.append_nil, List.nil_append]
  exact ⟨by trivial, by trivial⟩

lemma processBet_err_none_of_ok (matchList : List MatchRec) (devices : List Device)
    (st : DetectorState) (bet : Bet) (mid : String) (m : MatchRec)
    (hb : bet.matchId = some mid) (hne : mid ≠ "")
    (hfind : findMatch matchList mid = some m) {won : Bool}
    (hev : evaluate_bet (bet.selection.getD "1") (resolveScore m.ftHome m.htHome)
      (resolveScore m.ftAway m.htAway)
      (resolveScore m.ftHome m.htHome + resolveScore m.ftAway m.htAway) = Except.ok won) :
    (processBet matchList devices st bet).2.2 = none := by
  rw [processBet_resolved matchList devices st bet mid m hb hne hfind]
  simp only [stepFinished_err_none_of_ok hev]

lemma processBet_finished_fanout (matchList : List MatchRec) (devices : List Device)
    (st : DetectorState) (bet : Bet) (mid : String) (m : MatchRec)
    (hb : bet.matchId = some mid) (hne : mid ≠ "")
    (hfind : findMatch matchList mid = some m)
    (hstat : m.status = some "FINISHED") (hkey : finishedKey mid ∉ st.notified) {won : Bool}
    (hev : evaluate_bet (bet.selection.getD "1") (resolveScore m.ftHome m.htHome)
      (resolveScore m.ftAway m.htAway)
      (resolveScore m.ftHome m.htHome + resolveScore m.ftAway m.htAway) = Except.ok won) :
    (processBet matchList devices st bet).2.1.filter
      (fun n => n.dataType = "won" || n.dataType = "lost") =
      devices.map (fun d =>
        if won then
          wonNotif mid (m.homeTeamName.getD "Local") (m.awayTeamName.getD "Visitante")
            (resolveScore m.ftHome m.htHome) (resolveScore m.ftAway m.htAway) d
        else
          lostNotif mid (m.homeTeamName.getD "Local") (m.awayTeamName.getD "Visitante")
            (resolveScore m.ftHome m.htHome) (resolveScore m.ftAway m.htAway) d) := by
  rw [processBet_resolved matchList devices st bet mid m hb hne hfind]
  have hkey3 : finishedKey mid ∉
      (stepGoal devices mid (m.homeTeamName.getD "Local") (m.awayTeamName.getD "Visitante")
        m.status (resolveScore m.ftHome m.htHome) (resolveScore m.ftAway m.htAway)
        (lookupPrev st.prevScores mid).1 (lookupPrev st.prevScores mid).2
        (stepStarted devices mid (m.homeTeamName.getD "Local")
          (m.awayTeamName.getD "Visitante") m.status st).1).1.notified := by
    intro hmem
    rcases (stepGoal_notified_mem _ _ _ _ _ _ _ _ _ _ _).mp hmem with ⟨heq, _⟩ | hmem2
    · exact absurd heq (finishedKey_ne_scoreKey mid _ _)
    · rcases (stepStarted_notified_mem _ _ _ _ _ _ _).mp hmem2 with ⟨heq, _⟩ | hmem3
      · exact absurd heq (finishedKey_ne_startedKey mid)
      · exact hkey hmem3
  simp only [List.filter_append, stepStarted_filter_wl, stepGoal_filter_wl,
    stepFinished_fire_ok hev hstat hkey3, List.nil_append]
  rw [filter_map_of_true _ _ _ (fun d => by cases won <;> simp [wonNotif, lostNotif])]

lemma dedup_kickoff_instance
    (matchList : List MatchRec) (devices : List Device) (st : DetectorState)
    (mid : String) (m : MatchRec) (t1 t2 : Ticket) (b1 b2 : Bet)
    (hne : mid ≠ "")
    (ht1w : t1.status ≠ some "won") (ht1l : t1.status ≠ some "lost")
    (ht2w : t2.status ≠ some "won") (ht2l : t2.status ≠ some "lost")
    (hb1 : t1.bets = [b1]) (hb2 : t2.bets = [b2])
    (hm1 : b1.matchId = some mid) (hm2 : b2.matchId = some mid)
    (hfind : findMatch matchList mid = some m)
    (hstatus : m.status = some "IN_PLAY" ∨ m.status = some "LIVE")
    (hkey : startedKey mid ∉ st.notified) :
    ((process_matches matchList [t1, t2] devices st).2.1.filter
        (fun n => n.dataType = "started")) =
      devices.map (startedNotif mid (m.homeTeamName.getD "Local")
        (m.awayTeamName.getD "Visitante")) := by
  have hnf : m.status ≠ some "FINISHED" := by
    rcases hstatus with h | h <;> rw [h] <;> simp
  have he1 : (processBet matchList devices st b1).2.2 = none :=
    processBet_err_none_of_not_finished matchList devices st b1 mid m hm1 hne hfind hnf
  have hmem1 : startedKey mid ∈ (processBet matchList devices st b1).1.notified :=
    processBet_started_mem matchList devices st b1 mid m hm1 hne hfind hstatus
  have he2 : (processBet matchList devices (processBet matchList devices st b1).1 b2).2.2 =
      none :=
    processBet_err_none_of_not_finished matchList devices _ b2 mid m hm2 hne hfind hnf
  have hterm1 : ¬(t1.status = some "won" ∨ t1.status = some "lost") := by
    rintro (h | h)
    · exact ht1w h
    · exact ht1l h
  have hterm2 : ¬(t2.status = some "won" ∨ t2.status = some "lost") := by
    rintro (h | h)
    · exact ht2w h
    · exact ht2l h
  have hn1 : (processBet matchList devices st b1).2.1.filter
      (fun n => n.dataType = "started") =
      devices.map (startedNotif mid (m.homeTeamName.getD "Local")
        (m.awayTeamName.getD "Visitante")) := by
    rw [processBet_resolved matchList devices st b1 mid m hm1 hne hfind]
    simp only [stepStarted_fire hstatus hkey, List.filter_append,
      stepGoal_filter_started, stepFinished_filter_started, List.append_nil]
    rw [filter_map_of_true _ _ _ (fun d => by simp [startedNotif])]
  have hn2 : (processBet matchList devices (processBet matchList devices st b1).1
      b2).2.1.filter (fun n => n.dataType = "started") = [] :=
    processBet_started_suppressed matchList devices _ b2 mid m hm2 hne hfind hmem1
  simp only [process_matches, runTickets, processTicket, if_neg hterm1, if_neg hterm2,
    hb1, hb2, runBets, he1, he2]
  simp only [List.filter_append, hn1, hn2, List.append_nil]

lemma dedup_finished_instance
    (matchList : List MatchRec) (devices : List Device) (st : DetectorState)
    (mid : String) (m : MatchRec) (t1 t2 : Ticket) (b1 b2 : Bet) (won : Bool)
    (hne : mid ≠ "")
    (ht1w : t1.status ≠ some "won") (ht1l : t1.status ≠ some "lost")
    (ht2w : t2.status ≠ some "won") (ht2l : t2.status ≠ some "lost")
    (hb1 : t1.bets = [b1]) (hb2 : t2.bets = [b2])
    (hm1 : b1.matchId = some mid) (hm2 : b2.matchId = some mid)
    (hfind : findMatch matchList mid = some m)
    (hstat : m.status = some "FINISHED")
    (hkey : finishedKey mid ∉ st.notified)
    (hev : evaluate_bet (b1.selection.getD "1") (resolveScore m.ftHome m.htHome)
      (resolveScore m.ftAway m.htAway)
      (resolveScore m.ftHome m.htHome + resolveScore m.ftAway m.htAway) = Except.ok won) :
    ((process_matches matchList [t1, t2] devices st).2.1.filter
        (fun n => n.dataType = "won" || n.dataType = "lost")) =
      devices.map (fun d =>
        if won then
          wonNotif mid (m.homeTeamName.getD "Local") (m.awayTeamName.getD "Visitante")
            (resolveScore m.ftHome m.htHome) (resolveScore m.ftAway m.htAway) d
        else
          lostNotif mid (m.homeTeamName.getD "Local") (m.awayTeamName.getD "Visitante")
            (resolveScore m.ftHome m.htHome) (resolveScore m.ftAway m.htAway) d) := by
  have he1 : (processBet matchList devices st b1).2.2 = none :=
    processBet_err_none_of_ok matchList devices st b1 mid m hm1 hne hfind hev
  have hmemf : finishedKey mid ∈ (processBet matchList devices st b1).1.notified :=
    processBet_finished_mem matchList devices st b1 mid m hm1 hne hfind hstat
  have hsupp := processBet_finished_suppressed matchList devices
    (processBet matchList devices st b1).1 b2 mid m hm2 hne hfind hmemf
  have hterm1 : ¬(t1.status = some "won" ∨ t1.status = some "lost") := by
    rintro (h | h)
    · exact ht1w h
    · exact ht1l h
  have hterm2 : ¬(t2.status = some "won" ∨ t2.status = some "lost") := by
    rintro (h | h)
    · exact ht2w h
    · exact ht2l h
  have hn1 := processBet_finished_fanout matchList devices st b1 mid m hm1 hne hfind
    hstat hkey hev
  simp only [process_matches, runTickets, processTicket, if_neg hterm1, if_neg hterm2,
    hb1, hb2, runBets, he1, hsupp.2]
  simp only [List.filter_append, hn1, hsupp.1, List.append_nil]

/-- C3 amended: event-level deduplication is keyed only on match and event
(plus the resulting-score discriminant for goals), never on ticket or device.
Consequently: once an event key is recorded, processing any further bet of any
ticket in the same cycle emits no fan-out for that event — stated for all
three event kinds (kickoff, goal, finished); and in a cycle over two distinct
non-terminal tickets that each carry a bet on the same match, the shared event
— the same kickoff, or the same FINISHED match (with its evaluation returning
normally) — fans out exactly once, to every device, for the first ticket's
bet, while the second ticket's identical event is suppressed within the same
cycle rather than fanned out again. -/
theorem same_event_dedup_across_tickets :
    (∀ (matchList : List MatchRec) (devices : List Device) (st : DetectorState)
        (bet : Bet) (mid : String) (m : MatchRec),
        bet.matchId = some mid → mid ≠ "" → findMatch matchList mid = some m →
        startedKey mid ∈ st.notified →
        (processBet matchList devices st bet).2.1.filter
          (fun n => n.dataType = "started") = []) ∧
    (∀ (matchList : List MatchRec) (devices : List Device) (st : DetectorState)
        (bet : Bet) (mid : String) (m : MatchRec),
        bet.matchId = some mid → mid ≠ "" → findMatch matchList mid = some m →
        scoreKey mid (resolveScore m.ftHome m.htHome) (resolveScore m.ftAway m.htAway) ∈
          st.notified →
        (processBet matchList devices st bet).2.1.filter
          (fun n => n.dataType = "goal") = []) ∧
    (∀ (matchList : List MatchRec) (devices : List Device) (st : DetectorState)
        (bet : Bet) (mid : String) (m : MatchRec),
        bet.matchId = some mid → mid ≠ "" → findMatch matchList mid = some m →
        finishedKey mid ∈ st.notified →
        (processBet matchList devices st bet).2.1.filter
          (fun n => n.dataType = "won" || n.dataType = "lost") = [] ∧
        (processBet matchList devices st bet).2.2 = none) ∧
    (∀ (matchList : List MatchRec) (devices : List Device) (st : DetectorState)
        (mid : String) (m : MatchRec) (t1 t2 : Ticket) (b1 b2 : Bet),
        mid ≠ "" →
        t1.status ≠ some "won" → t1.status ≠ some "lost" →
        t2.status ≠ some "won" → t2.status ≠ some "lost" →
        t1.bets = [b1] → t2.bets = [b2] →
        b1.matchId = some mid → b2.matchId = some mid →
        findMatch matchList mid = some m →
        (m.status = some "IN_PLAY" ∨ m.status = some "LIVE") →
        startedKey mid ∉ st.notified →
        ((process_matches matchList [t1, t2] devices st).2.1.filter
            (fun n => n.dataType = "started")) =
          devices.map (startedNotif mid (m.homeTeamName.getD "Local")
            (m.awayTeamName.getD "Visitante"))) ∧
    (∀ (matchList : List MatchRec) (devices : List Device) (st : DetectorState)
        (mid : String) (m : MatchRec) (t1 t2 : Ticket) (b1 b2 : Bet) (won : Bool),
        mid ≠ "" →
        t1.status ≠ some "won" → t1.status ≠ some "lost" →
        t2.status ≠ some "won" → t2.status ≠ some "lost" →
        t1.bets = [b1] → t2.bets = [b2] →
        b1.matchId = some mid → b2.matchId = some mid →
        findMatch matchList mid = some m →
        m.status = some "FINISHED" →
        finishedKey mid ∉ st.notified →
        evaluate_bet (b1.selection.getD "1") (resolveScore m.ftHome m.htHome)
          (resolveScore m.ftAway m.htAway)
          (resolveScore m.ftHome m.htHome + resolveScore m.ftAway m.htAway) =
          Except.ok won →
        ((process_matches matchList [t1, t2] devices st).2.1.filter
            (fun n => n.dataType = "won" || n.dataType = "lost")) =
          devices.map (fun d =>
            if won then
              wonNotif mid (m.homeTeamName.getD "Local") (m.awayTeamName.getD "Visitante")
                (resolveScore m.ftHome m.htHome) (resolveScore m.ftAway m.htAway) d
            else
              lostNotif mid (m.homeTeamName.getD "Local") (m.awayTeamName.getD "Visitante")
                (resolveScore m.ftHome m.htHome) (resolveScore m.ftAway m.htAway) d)) :=
  ⟨processBet_started_suppressed,
   processBet_goal_suppressed,
   processBet_finished_suppressed,
   fun matchList devices st mid m t1 t2 b1 b2 hne h1 h2 h3 h4 hb1 hb2 hm1 hm2 hf hs hk =>
     dedup_kickoff_instance matchList devices st mid m t1 t2 b1 b2 hne h1 h2 h3 h4 hb1 hb2
       hm1 hm2 hf hs hk,
   fun matchList devices st mid m t1 t2 b1 b2 won hne h1 h2 h3 h4 hb1 hb2 hm1 hm2 hf hs hk
       hev =>
     dedup_finished_instance matchList devices st mid m t1 t2 b1 b2 won hne h1 h2 h3 h4
       hb1 hb2 hm1 hm2 hf hs hk hev⟩

/-- C3 amended witness: the finished-match case of the dedup theorem at a
concrete two-ticket cycle — one `won` fan-out, the second ticket suppressed. -/
theorem same_event_dedup_across_tickets_witness :
    ((process_matches [sampleMatch "M1" "FINISHED" 2 1]
        [⟨none, [⟨some "M1", some "1"⟩]⟩, ⟨none, [⟨some "M1", some "X"⟩]⟩]
        [devA] initState).2.1.filter
      (fun n => n.dataType = "won" || n.dataType = "lost")) =
      [devA].map (fun d =>
        if (true : Bool) then wonNotif "M1" "Alpha" "Beta" 2 1 d
        else lostNotif "M1" "Alpha" "Beta" 2 1 d) :=
  same_event_dedup_across_tickets.2.2.2.2 [sampleMatch "M1" "FINISHED" 2 1] [devA]
    initState "M1" (sampleMatch "M1" "FINISHED" 2 1)
    ⟨none, [⟨some "M1", some "1"⟩]⟩ ⟨none, [⟨some "M1", some "X"⟩]⟩
    ⟨some "M1", some "1"⟩ ⟨some "M1", some "X"⟩ true
    (by decide) (by decide) (by decide) (by decide) (by decide)
    rfl rfl rfl rfl (by decide) (by decide) (by decide) rfl
